import Mathlib

/-!
Verification of the sleep/motion state-inference engine in
`src/sleep_manager.py` (classes `BreathingAnalyzer` and `SleepManager`).

Shallow embedding conventions:
* Python floats are modelled as `ℚ` (the claims are about exact threshold
  comparisons, not float rounding).
* `deque(maxlen=n)` is modelled as a list with `dequeAppend`, which drops
  from the front when the capacity is exceeded.
* `statistics.stdev` produces an irrational square root; the only consumer
  of the standard deviation of breath intervals is the coefficient of
  variation `CV = stdev/mean`, which the code compares against nonnegative
  constants.  Since `CV ≥ 0`, each comparison `CV ⋈ c` is equivalent to
  `CV² ⋈ c²`, so we embed `CV²` (`variabilitySq`) and compare against the
  squared thresholds; `CV = 0 ↔ CV² = 0`.  The window standard deviation
  (`analysis['std']`), `analysis['max']` and `analysis['min']` are computed
  by `_analyze_buffer` but read by no consumer embedded here, so they are
  omitted from the `Analysis` record.
* The wall-clock `time.time()` read inside `update` becomes an explicit
  timestamp argument.
-/

namespace BabySleep

/-- Enum `SleepState` of `sleep_manager.py`. -/
inductive SleepState where
  | UNKNOWN
  | NO_BREATHING
  | DEEP_SLEEP
  | LIGHT_SLEEP
  | SPASM
  | AWAKE
deriving DecidableEq

/-- Class `SleepEvent`: the `data` dict payloads that occur are
`{"sleep_duration": d}` for wake-ups and `{"from": _, "to": _}` for phase
changes; they are modelled as optional fields. -/
structure SleepEvent where
  event_type : String
  timestamp : ℚ
  sleep_duration : Option ℚ
  phase_from : Option String
  phase_to : Option String
deriving DecidableEq

/-- Model of `deque(maxlen := cap)` append: push at the back, evict the
oldest entries when the capacity is exceeded. -/
def dequeAppend (cap : Nat) (xs : List α) (x : α) : List α :=
  let ys := xs ++ [x]
  if ys.length > cap then ys.drop (ys.length - cap) else ys

/-- Class attribute `BreathingAnalyzer.BREATH_PEAK_THRESHOLD`. -/
def BREATH_PEAK_THRESHOLD : ℚ := 50000
/-- Class attribute `BreathingAnalyzer.MIN_BREATH_INTERVAL`. -/
def MIN_BREATH_INTERVAL : ℚ := 1
/-- Class attribute `BreathingAnalyzer.MAX_BREATH_INTERVAL`. -/
def MAX_BREATH_INTERVAL : ℚ := 5
/-- Class attribute `BreathingAnalyzer.LOW_VARIABILITY_THRESHOLD`. -/
def LOW_VARIABILITY_THRESHOLD : ℚ := 15/100
/-- Class attribute `BreathingAnalyzer.HIGH_VARIABILITY_THRESHOLD`. -/
def HIGH_VARIABILITY_THRESHOLD : ℚ := 30/100

/-- Mutable state of class `BreathingAnalyzer`. -/
structure BreathingAnalyzer where
  breath_timestamps : List ℚ
  breath_intervals : List ℚ
  last_peak_time : Option ℚ
  in_peak : Bool
deriving DecidableEq

/-- State after `BreathingAnalyzer.__init__` / `reset`. -/
def BreathingAnalyzer.reset : BreathingAnalyzer :=
  { breath_timestamps := []
    breath_intervals := []
    last_peak_time := none
    in_peak := false }

/-- Method `BreathingAnalyzer.process_motion`; returns the updated analyzer
together with the detected breath interval, if any. -/
def processMotion (motion_score timestamp : ℚ) (a : BreathingAnalyzer) :
    BreathingAnalyzer × Option ℚ :=
  if motion_score > BREATH_PEAK_THRESHOLD then
    if a.in_peak = false then
      let a := { a with in_peak := true }
      match a.last_peak_time with
      | some lp =>
        let interval := timestamp - lp
        let a := { a with last_peak_time := some timestamp }
        if MIN_BREATH_INTERVAL ≤ interval ∧ interval ≤ MAX_BREATH_INTERVAL then
          ({ a with
              breath_timestamps := dequeAppend 100 a.breath_timestamps timestamp
              breath_intervals := dequeAppend 50 a.breath_intervals interval },
           some interval)
        else if interval > MAX_BREATH_INTERVAL then
          ({ a with
              breath_timestamps := dequeAppend 100 a.breath_timestamps timestamp },
           none)
        else
          (a, none)
      | none =>
        ({ a with
            last_peak_time := some timestamp
            breath_timestamps := dequeAppend 100 a.breath_timestamps timestamp },
         none)
    else
      (a, none)
  else
    ({ a with in_peak := false }, none)

/-- Python `statistics.mean` (call sites guard against the empty list). -/
def listMean (xs : List ℚ) : ℚ := xs.sum / (xs.length : ℚ)

/-- Python `statistics.stdev` squared, i.e. the sample variance
`Σ (x − mean)² / (n − 1)` (call sites guard `n ≥ 2`). -/
def sampleVariance (xs : List ℚ) : ℚ :=
  (xs.map (fun x => (x - listMean xs) ^ 2)).sum / ((xs.length : ℚ) - 1)

/-- Python `xs[-n:]` for `n > 0`: the last at most `n` elements. -/
def takeLast (n : Nat) (xs : List α) : List α := xs.drop (xs.length - n)

/-- Square of `BreathingAnalyzer.get_breathing_variability` (the code
returns `stdev/mean` of the last 20 intervals when at least 5 intervals are
recorded and the mean is positive, else 0; we embed its square, see the
header note). -/
def BreathingAnalyzer.variabilitySq (a : BreathingAnalyzer) : ℚ :=
  if a.breath_intervals.length < 5 then 0
  else
    let recent := takeLast 20 a.breath_intervals
    if listMean recent > 0 ∧ recent.length ≥ 2 then
      sampleVariance recent / (listMean recent) ^ 2
    else 0

/-- Method `BreathingAnalyzer.get_sleep_phase`: the code compares the
nonnegative CV with `0`, `0.15` and `0.30`; we compare its square with the
squared constants, which is equivalent. -/
def BreathingAnalyzer.sleepPhase (a : BreathingAnalyzer) : String :=
  let vsq := a.variabilitySq
  if vsq = 0 then "unknown"
  else if vsq < LOW_VARIABILITY_THRESHOLD ^ 2 then "deep"
  else if vsq > HIGH_VARIABILITY_THRESHOLD ^ 2 then "light"
  else "transitional"

/-- Run a sequence of `process_motion` calls on the breathing analyzer;
each trace entry is `(motion_score, timestamp)`. -/
def runBA (tr : List (ℚ × ℚ)) (a : BreathingAnalyzer) : BreathingAnalyzer :=
  tr.foldl (fun a p => (processMotion p.1 p.2 a).1) a

/-- Class attribute `SleepManager.BUFFER_DURATION`. -/
def BUFFER_DURATION : ℚ := 60
/-- Class attribute `SleepManager.ANALYSIS_WINDOW`. -/
def ANALYSIS_WINDOW : ℚ := 10
/-- Class attribute `SleepManager.SPASM_WINDOW`. -/
def SPASM_WINDOW : ℚ := 5
/-- Class attribute `SleepManager.CONFIRM_AWAKE_SECONDS`. -/
def CONFIRM_AWAKE_SECONDS : ℚ := 8
/-- Class attribute `SleepManager.CONFIRM_SLEEP_SECONDS`. -/
def CONFIRM_SLEEP_SECONDS : ℚ := 15
/-- Class attribute `SleepManager.CONFIRM_NO_BREATHING_SECONDS`. -/
def CONFIRM_NO_BREATHING_SECONDS : ℚ := 12
/-- Class attribute `SleepManager.CONFIRM_PHASE_CHANGE_SECONDS`. -/
def CONFIRM_PHASE_CHANGE_SECONDS : ℚ := 30

/-- The motion thresholds of `SleepManager`; `set_thresholds` can override
them per instance (`setattr` on the upper-cased keyword name), so they are
part of the engine state rather than global constants. -/
structure Thresholds where
  NO_MOTION_THRESHOLD : ℚ
  BREATHING_LOW : ℚ
  BREATHING_HIGH : ℚ
  MOVEMENT_THRESHOLD : ℚ
  AWAKE_THRESHOLD : ℚ
deriving DecidableEq

/-- The class-attribute default values of the motion thresholds. -/
def defaultThresholds : Thresholds :=
  { NO_MOTION_THRESHOLD := 10000
    BREATHING_LOW := 10000
    BREATHING_HIGH := 1500000
    MOVEMENT_THRESHOLD := 5000000
    AWAKE_THRESHOLD := 10000000 }

/-- Dict `SleepManager.VALID_TRANSITIONS` (every state is a key, so the
`.get(current, [])` default is unreachable). -/
def VALID_TRANSITIONS : SleepState → List SleepState
  | .UNKNOWN => [.NO_BREATHING, .DEEP_SLEEP, .LIGHT_SLEEP, .AWAKE]
  | .NO_BREATHING => [.DEEP_SLEEP, .LIGHT_SLEEP, .AWAKE]
  | .DEEP_SLEEP => [.LIGHT_SLEEP, .SPASM, .NO_BREATHING, .AWAKE]
  | .LIGHT_SLEEP => [.DEEP_SLEEP, .SPASM, .NO_BREATHING, .AWAKE]
  | .SPASM => [.DEEP_SLEEP, .LIGHT_SLEEP, .AWAKE]
  | .AWAKE => [.DEEP_SLEEP, .LIGHT_SLEEP]

/-- Entry of `SleepManager.sleep_cycles`. -/
structure SleepCycle where
  cycle_start : ℚ
  cycle_end : ℚ
  duration_minutes : ℚ
deriving DecidableEq

/-- Mutable state of class `SleepManager` (the `session_id` uuid string is
omitted; the `lock` is irrelevant to the sequential semantics embedded
here; `micro_arousals`, `current_phase`, `phase_start_time` and
`_last_log_time` are initialised by `_reset_session` and never written
afterwards). -/
structure SleepManager where
  thresholds : Thresholds
  breathing_analyzer : BreathingAnalyzer
  session_start_time : Option ℚ
  current_state : SleepState
  motion_buffer : List (ℚ × ℚ)
  state_start_time : ℚ
  pending_state : Option SleepState
  pending_state_time : Option ℚ
  spasm_start_time : Option ℚ
  pre_spasm_state : Option SleepState
  current_phase : String
  phase_start_time : ℚ
  total_sleep_seconds : ℚ
  deep_sleep_seconds : ℚ
  light_sleep_seconds : ℚ
  last_sleep_start : Option ℚ
  wake_up_count : Nat
  spasm_count : Nat
  micro_arousals : Nat
  sleep_cycles : List SleepCycle
  current_cycle_start : Option ℚ
  events : List SleepEvent
  last_update_time : ℚ
deriving DecidableEq

/-- State after `SleepManager.__init__` / `_reset_session` (before
`start_session` sets a start time). -/
def initManager : SleepManager :=
  { thresholds := defaultThresholds
    breathing_analyzer := BreathingAnalyzer.reset
    session_start_time := none
    current_state := .UNKNOWN
    motion_buffer := []
    state_start_time := 0
    pending_state := none
    pending_state_time := none
    spasm_start_time := none
    pre_spasm_state := none
    current_phase := "unknown"
    phase_start_time := 0
    total_sleep_seconds := 0
    deep_sleep_seconds := 0
    light_sleep_seconds := 0
    last_sleep_start := none
    wake_up_count := 0
    spasm_count := 0
    micro_arousals := 0
    sleep_cycles := []
    current_cycle_start := none
    events := []
    last_update_time := 0 }

/-- Method `SleepManager._clean_buffer`: pop entries older than
`current_time − BUFFER_DURATION` from the front while they exist. -/
def cleanBuffer (current_time : ℚ) : List (ℚ × ℚ) → List (ℚ × ℚ)
  | [] => []
  | p :: rest =>
    if p.1 < current_time - BUFFER_DURATION then cleanBuffer current_time rest
    else p :: rest

/-- Python `max(xs)` on a nonempty list (0 for the empty list, matching the
`if spasm_scores else 0` guard at the call site). -/
def listMax : List ℚ → ℚ
  | [] => 0
  | x :: xs => xs.foldl max x

/-- Statistics returned by `SleepManager._analyze_buffer` that are consumed
downstream (`std`, `max`, `min` are computed there but read by no embedded
consumer and are omitted, see the header note; `breathing` carries only the
`sleep_phase` entry, the one the state classifier reads). -/
structure Analysis where
  mean : ℚ
  high_movement_frac : ℚ
  is_no_motion : Bool
  sample_count : Nat
  spasm_max : ℚ
  current_score : ℚ
  sleep_phase : String
deriving DecidableEq

/-- Method `SleepManager._analyze_buffer` (the source's
`high_movement_ratio` is renamed `high_movement_frac` here). -/
def analyzeBuffer (current_time : ℚ) (s : SleepManager) : Analysis :=
  let window_scores :=
    (s.motion_buffer.filter (fun p => p.1 ≥ current_time - ANALYSIS_WINDOW)).map Prod.snd
  let spasm_scores :=
    (s.motion_buffer.filter (fun p => p.1 ≥ current_time - SPASM_WINDOW)).map Prod.snd
  let mean_score :=
    if window_scores.length ≥ 2 then listMean window_scores
    else if window_scores.length = 1 then window_scores.headD 0
    else 0
  { mean := mean_score
    high_movement_frac :=
      ((window_scores.filter (fun x => x > s.thresholds.MOVEMENT_THRESHOLD)).length : ℚ) /
        (max window_scores.length 1 : ℚ)
    is_no_motion := decide (mean_score < s.thresholds.NO_MOTION_THRESHOLD)
    sample_count := window_scores.length
    spasm_max := listMax spasm_scores
    current_score := (s.motion_buffer.getLast?.map Prod.snd).getD 0
    sleep_phase := s.breathing_analyzer.sleepPhase }

/-- Method `SleepManager._determine_state`. -/
def determineState (s : SleepManager) (a : Analysis) : SleepState :=
  if a.is_no_motion then .NO_BREATHING
  else if a.high_movement_frac > 5/10 ∧ a.mean > s.thresholds.MOVEMENT_THRESHOLD then .AWAKE
  else if (s.current_state = .DEEP_SLEEP ∨ s.current_state = .LIGHT_SLEEP ∨
            s.current_state = .SPASM) ∧
          a.spasm_max > s.thresholds.AWAKE_THRESHOLD ∧ a.high_movement_frac < 3/10 then
    .SPASM
  else if a.mean < s.thresholds.AWAKE_THRESHOLD then
    if a.sleep_phase = "deep" then .DEEP_SLEEP
    else if a.sleep_phase = "light" ∨ a.sleep_phase = "transitional" then .LIGHT_SLEEP
    else if s.current_state = .UNKNOWN then .LIGHT_SLEEP else s.current_state
  else if s.current_state ≠ .UNKNOWN then s.current_state else .LIGHT_SLEEP

/-- Method `SleepManager._find_valid_transition`. -/
def findValidTransition (current target : SleepState) : SleepState :=
  if current = .AWAKE then .LIGHT_SLEEP
  else if current = .NO_BREATHING then target
  else current

/-- Method `SleepManager._get_confirmation_time`. -/
def getConfirmationTime (from_state to_state : SleepState) : ℚ :=
  if to_state = .SPASM then 5/10
  else if to_state = .NO_BREATHING then CONFIRM_NO_BREATHING_SECONDS
  else if to_state = .AWAKE then CONFIRM_AWAKE_SECONDS
  else if from_state = .DEEP_SLEEP ∧ to_state = .LIGHT_SLEEP then CONFIRM_PHASE_CHANGE_SECONDS
  else if from_state = .LIGHT_SLEEP ∧ to_state = .DEEP_SLEEP then CONFIRM_PHASE_CHANGE_SECONDS
  else if from_state = .AWAKE then CONFIRM_SLEEP_SECONDS
  else 3

/-- Method `SleepManager._execute_transition`; also returns the committed
`(old_state, new_state)` pair (the code logs it), so that theorems can
speak about committed transitions.  The `reason` string is kept for
fidelity with the call sites. -/
def executeTransition (new_state : SleepState) (current_time : ℚ) (reason : String)
    (s : SleepManager) : SleepManager × Option (SleepState × SleepState) :=
  let old_state := s.current_state
  let s :=
    if new_state = .SPASM then
      { s with
          spasm_start_time := some current_time
          pre_spasm_state := some old_state
          spasm_count := s.spasm_count + 1
          events := s.events ++ [⟨"spasm", current_time, none, none, none⟩] }
    else s
  let s :=
    if (old_state = .DEEP_SLEEP ∨ old_state = .LIGHT_SLEEP) ∧ new_state = .AWAKE then
      let s := { s with wake_up_count := s.wake_up_count + 1 }
      match s.last_sleep_start with
      | some ls =>
        let sleep_duration := current_time - ls
        let s :=
          { s with
              events := s.events ++
                [(⟨"wake_up", current_time, some sleep_duration, none, none⟩ : SleepEvent)]
              last_sleep_start := none }
        match s.current_cycle_start with
        | some cs =>
          { s with
              sleep_cycles := s.sleep_cycles ++
                [(⟨cs, current_time, (current_time - cs) / 60⟩ : SleepCycle)]
              current_cycle_start := none }
        | none => s
      | none => s
    else s
  let s :=
    if (old_state = .AWAKE ∨ old_state = .UNKNOWN) ∧
        (new_state = .DEEP_SLEEP ∨ new_state = .LIGHT_SLEEP) then
      { s with
          events := s.events ++ [⟨"fell_asleep", current_time, none, none, none⟩]
          last_sleep_start := some current_time
          current_cycle_start := some current_time }
    else s
  let s :=
    if old_state = .DEEP_SLEEP ∧ new_state = .LIGHT_SLEEP then
      { s with events := s.events ++
          [(⟨"phase_change", current_time, none, some "deep", some "light"⟩ : SleepEvent)] }
    else if old_state = .LIGHT_SLEEP ∧ new_state = .DEEP_SLEEP then
      { s with events := s.events ++
          [(⟨"phase_change", current_time, none, some "light", some "deep"⟩ : SleepEvent)] }
    else s
  let s :=
    if new_state = .NO_BREATHING then
      { s with events := s.events ++ [⟨"no_breathing_alert", current_time, none, none, none⟩] }
    else s
  let _ := reason
  ({ s with
      current_state := new_state
      state_start_time := current_time
      pending_state := none
      pending_state_time := none },
   some (old_state, new_state))

/-- The candidate-validation step at the top of
`SleepManager._handle_transition`: a candidate that is not an allowed
transition from the current state (and differs from it) is remapped by
`_find_valid_transition`. -/
def effectiveTarget (s : SleepManager) (target : SleepState) : SleepState :=
  if ¬ target ∈ VALID_TRANSITIONS s.current_state ∧ target ≠ s.current_state then
    findValidTransition s.current_state target
  else target

/-- Method `SleepManager._handle_transition` (hysteresis); second component
is the transition committed during this call, if any.  In the code the
optional fields `spasm_start_time` and `pending_state_time` are read only
on paths where they have been set; `.getD 0` stands for that read. -/
def handleTransition (target : SleepState) (current_time : ℚ) (s : SleepManager) :
    SleepManager × Option (SleepState × SleepState) :=
  let target := effectiveTarget s target
  if target = s.current_state then
    let r :=
      if s.current_state = .SPASM ∧
          current_time - s.spasm_start_time.getD 0 > SPASM_WINDOW then
        executeTransition (s.pre_spasm_state.getD .LIGHT_SLEEP) current_time "spasm_ended" s
      else (s, none)
    if r.1.pending_state = none then r
    else ({ r.1 with pending_state := none, pending_state_time := none }, r.2)
  else
    let confirm_time := getConfirmationTime s.current_state target
    if s.pending_state = some target then
      if current_time - s.pending_state_time.getD 0 ≥ confirm_time then
        executeTransition target current_time "confirmed" s
      else (s, none)
    else
      ({ s with pending_state := some target, pending_state_time := some current_time }, none)

/-- Method `SleepManager._update_metrics` (the `analysis` argument of the
source is unused by its body and dropped here). -/
def updateMetrics (current_time : ℚ) (s : SleepManager) : SleepManager :=
  if s.last_update_time > 0 then
    let delta := current_time - s.last_update_time
    if s.current_state = .DEEP_SLEEP then
      { s with
          deep_sleep_seconds := s.deep_sleep_seconds + delta
          total_sleep_seconds := s.total_sleep_seconds + delta }
    else if s.current_state = .LIGHT_SLEEP then
      { s with
          light_sleep_seconds := s.light_sleep_seconds + delta
          total_sleep_seconds := s.total_sleep_seconds + delta }
    else if s.current_state = .SPASM then
      { s with
          light_sleep_seconds := s.light_sleep_seconds + delta
          total_sleep_seconds := s.total_sleep_seconds + delta }
    else s
  else s

/-- The ingestion prefix of `SleepManager.update`: auto-start the session,
append to the motion buffer, process breathing, clean the buffer. -/
def ingest (motion_score current_time : ℚ) (s : SleepManager) : SleepManager :=
  let s :=
    if s.session_start_time = none then { s with session_start_time := some current_time }
    else s
  let s := { s with motion_buffer := s.motion_buffer ++ [(current_time, motion_score)] }
  let s := { s with
      breathing_analyzer := (processMotion motion_score current_time s.breathing_analyzer).1 }
  { s with motion_buffer := cleanBuffer current_time s.motion_buffer }

/-- Method `SleepManager.update` with the current wall-clock time as an
explicit argument; also returns the transition committed by this call, if
any. -/
def updateWithCommit (motion_score current_time : ℚ) (s : SleepManager) :
    SleepManager × Option (SleepState × SleepState) :=
  let s := ingest motion_score current_time s
  let analysis := analyzeBuffer current_time s
  let target := determineState s analysis
  let r := handleTransition target current_time s
  let s := updateMetrics current_time r.1
  ({ s with last_update_time := current_time }, r.2)

/-- Method `SleepManager.update`, state part. -/
def update (motion_score current_time : ℚ) (s : SleepManager) : SleepManager :=
  (updateWithCommit motion_score current_time s).1

/-- Run a sequence of `update` calls; each trace entry is
`(motion_score, current_time)`. -/
def run (tr : List (ℚ × ℚ)) (s : SleepManager) : SleepManager :=
  tr.foldl (fun s p => update p.1 p.2 s) s

/-- Method `SleepManager.stop_session`; the `Bool` is whether the session
is saved to the history file (`session_start_time is not None and
total_sleep_seconds >= 60`). -/
def stopSession (current_time : ℚ) (s : SleepManager) : SleepManager × Bool :=
  let s :=
    match s.last_sleep_start with
    | some ls =>
      { s with
          total_sleep_seconds := s.total_sleep_seconds + (current_time - ls)
          last_sleep_start := none }
    | none => s
  (s, s.session_start_time.isSome && decide (s.total_sleep_seconds ≥ 60))

/-- Session duration as computed in `SleepManager.get_stats`
(`current_time − session_start_time`, 0 when no session was started). -/
def sessionDuration (current_time : ℚ) (s : SleepManager) : ℚ :=
  match s.session_start_time with
  | some st => current_time - st
  | none => 0

/-- Method `SleepManager.set_thresholds` specialised to the keyword
argument `awake_threshold`, i.e. `setattr(self, "AWAKE_THRESHOLD", v)`. -/
def setAwakeThreshold (v : ℚ) (s : SleepManager) : SleepManager :=
  { s with thresholds := { s.thresholds with AWAKE_THRESHOLD := v } }

/-- Method `SleepManager._calculate_sleep_quality` as a function of the
state fields and breathing statistic it reads; `variability` stands for
the breathing-variability value obtained from the analyzer's stats. -/
def calculateSleepQuality (session_duration total_sleep_seconds deep_sleep_seconds : ℚ)
    (wake_up_count spasm_count : Nat) (variability : ℚ) : ℤ :=
  if session_duration < 60 ∨ total_sleep_seconds < 60 then 0
  else
    let score : ℤ := 100
    let deep_ratio := deep_sleep_seconds / max total_sleep_seconds 1
    let score :=
      if deep_ratio < 2/10 then score - 20
      else if deep_ratio < 35/100 then score - 10
      else if deep_ratio > 6/10 then score - 5
      else score
    let expected_wakes := session_duration / 3600
    let excess_wakes := max 0 ((wake_up_count : ℚ) - expected_wakes)
    let score := score - min 30 ⌊excess_wakes * 10⌋
    let score :=
      if spasm_count > 10 then score - min 10 ((spasm_count : ℤ) - 10) else score
    let score := if variability > 4/10 then score - 10 else score
    max 0 (min 100 score)

/-- Python `events[-count:]` in `get_recent_events`: for `count = 0` the
slice `events[-0:]` is `events[0:]`, the whole list; for `count > 0` it is
the last `count` entries (the call site guards `len(events) > count`, so
no clamping occurs). -/
def pyLastSlice (count : Nat) (xs : List α) : List α :=
  if count = 0 then xs else xs.drop (xs.length - count)

/-- Method `SleepManager.get_recent_events` (the code maps each event to a
`{type, timestamp, data}` dict; the event list itself is returned here). -/
def getRecentEvents (count : Nat) (s : SleepManager) : List SleepEvent :=
  if s.events.length > count then pyLastSlice count s.events else s.events

/-- The candidate state an `update(score)` call at `current_time` computes
before hysteresis: the composition of the ingestion prefix,
`_analyze_buffer` and `_determine_state` inside `SleepManager.update`. -/
def classifyCandidate (motion_score current_time : ℚ) (s : SleepManager) : SleepState :=
  let si := ingest motion_score current_time s
  determineState si (analyzeBuffer current_time si)

/-- Transcription of the state classifier exactly as the specification
section 4.4 words it, rule by rule, to be compared with `determineState`
(which is transcribed from the code): (1) no motion → NO_BREATHING;
(2) sustained high movement → AWAKE; (3) spike during sleep → SPASM;
(4) below the awake threshold, classify by breathing phase; (5) fallback
keeps the current state, with UNKNOWN resolving to LIGHT_SLEEP. -/
def determineStateSpec (s : SleepManager) (a : Analysis) : SleepState :=
  if a.is_no_motion = true then .NO_BREATHING
  else if a.high_movement_frac > 5/10 ∧ a.mean > s.thresholds.MOVEMENT_THRESHOLD then .AWAKE
  else if (s.current_state = .DEEP_SLEEP ∨ s.current_state = .LIGHT_SLEEP ∨
            s.current_state = .SPASM) ∧
          a.spasm_max > s.thresholds.AWAKE_THRESHOLD ∧ a.high_movement_frac < 3/10 then .SPASM
  else if a.mean < s.thresholds.AWAKE_THRESHOLD then
    if a.sleep_phase = "deep" then .DEEP_SLEEP
    else if a.sleep_phase = "light" ∨ a.sleep_phase = "transitional" then .LIGHT_SLEEP
    else if s.current_state = .UNKNOWN then .LIGHT_SLEEP
    else s.current_state
  else if s.current_state = .UNKNOWN then .LIGHT_SLEEP
  else s.current_state

/-- Concrete engine states along a test trace of `update` calls, used to
instantiate the theorems below on explicit inputs.  `wS1` is the state
after `update(20000)` at time 1 from a fresh engine. -/
def wS1 : SleepManager :=
  { initManager with
      session_start_time := some 1
      motion_buffer := [(1, 20000)]
      pending_state := some .LIGHT_SLEEP
      pending_state_time := some 1
      last_update_time := 1 }

/-- State after a further `update(20000)` at time 2. -/
def wS2 : SleepManager :=
  { wS1 with motion_buffer := [(1, 20000), (2, 20000)], last_update_time := 2 }

/-- State after a further `update(20000)` at time 3. -/
def wS3 : SleepManager :=
  { wS2 with motion_buffer := [(1, 20000), (2, 20000), (3, 20000)], last_update_time := 3 }

/-- State after a further `update(20000)` at time 4: the pending
LIGHT_SLEEP transition (3s confirmation) commits. -/
def wS4 : SleepManager :=
  { wS3 with
      current_state := .LIGHT_SLEEP
      motion_buffer := [(1, 20000), (2, 20000), (3, 20000), (4, 20000)]
      state_start_time := 4
      pending_state := none
      pending_state_time := none
      total_sleep_seconds := 1
      light_sleep_seconds := 1
      last_sleep_start := some 4
      current_cycle_start := some 4
      events := [⟨"fell_asleep", 4, none, none, none⟩]
      last_update_time := 4 }

/-- State after a spike `update(20000000)` at time 5: SPASM goes pending. -/
def wS5 : SleepManager :=
  { wS4 with
      breathing_analyzer :=
        { breath_timestamps := [5], breath_intervals := [], last_peak_time := some 5,
          in_peak := true }
      motion_buffer := [(1, 20000), (2, 20000), (3, 20000), (4, 20000), (5, 20000000)]
      pending_state := some .SPASM
      pending_state_time := some 5
      total_sleep_seconds := 2
      light_sleep_seconds := 2
      last_update_time := 5 }

/-- State after `update(20000)` at time 28/5: the pending SPASM commits
(0.5s confirmation), recording the pre-spasm state LIGHT_SLEEP. -/
def wS6 : SleepManager :=
  { wS5 with
      breathing_analyzer :=
        { breath_timestamps := [5], breath_intervals := [], last_peak_time := some 5,
          in_peak := false }
      current_state := .SPASM
      motion_buffer :=
        [(1, 20000), (2, 20000), (3, 20000), (4, 20000), (5, 20000000), (28/5, 20000)]
      state_start_time := 28/5
      pending_state := none
      pending_state_time := none
      spasm_start_time := some (28/5)
      pre_spasm_state := some .LIGHT_SLEEP
      total_sleep_seconds := 13/5
      light_sleep_seconds := 13/5
      spasm_count := 1
      events := [⟨"fell_asleep", 4, none, none, none⟩, ⟨"spasm", 28/5, none, none, none⟩]
      last_update_time := 28/5 }

/-- Reachability invariant used below: the recorded pre-spasm state (set
when a SPASM transition commits, to the state the engine was in) is always
DEEP_SLEEP or LIGHT_SLEEP, because SPASM is a legal transition target only
from those two states. -/
def preSpasmInv (s : SleepManager) : Prop :=
  ∀ x, s.pre_spasm_state = some x → x = SleepState.DEEP_SLEEP ∨ x = SleepState.LIGHT_SLEEP

/-! Evaluation support: ground disequalities between `SleepState`
constructors and between the sleep-phase strings, as rewrite rules, so
that `norm_num` can evaluate the embedded functions on concrete
states. -/

@[simp] theorem ssne_UNKNOWN_NO_BREATHING : (SleepState.UNKNOWN = SleepState.NO_BREATHING) = False := by decide
@[simp] theorem ssne_UNKNOWN_DEEP_SLEEP : (SleepState.UNKNOWN = SleepState.DEEP_SLEEP) = False := by decide
@[simp] theorem ssne_UNKNOWN_LIGHT_SLEEP : (SleepState.UNKNOWN = SleepState.LIGHT_SLEEP) = False := by decide
@[simp] theorem ssne_UNKNOWN_SPASM : (SleepState.UNKNOWN = SleepState.SPASM) = False := by decide
@[simp] theorem ssne_UNKNOWN_AWAKE : (SleepState.UNKNOWN = SleepState.AWAKE) = False := by decide
@[simp] theorem ssne_NO_BREATHING_UNKNOWN : (SleepState.NO_BREATHING = SleepState.UNKNOWN) = False := by decide
@[simp] theorem ssne_NO_BREATHING_DEEP_SLEEP : (SleepState.NO_BREATHING = SleepState.DEEP_SLEEP) = False := by decide
@[simp] theorem ssne_NO_BREATHING_LIGHT_SLEEP : (SleepState.NO_BREATHING = SleepState.LIGHT_SLEEP) = False := by decide
@[simp] theorem ssne_NO_BREATHING_SPASM : (SleepState.NO_BREATHING = SleepState.SPASM) = False := by decide
@[simp] theorem ssne_NO_BREATHING_AWAKE : (SleepState.NO_BREATHING = SleepState.AWAKE) = False := by decide
@[simp] theorem ssne_DEEP_SLEEP_UNKNOWN : (SleepState.DEEP_SLEEP = SleepState.UNKNOWN) = False := by decide
@[simp] theorem ssne_DEEP_SLEEP_NO_BREATHING : (SleepState.DEEP_SLEEP = SleepState.NO_BREATHING) = False := by decide
@[simp] theorem ssne_DEEP_SLEEP_LIGHT_SLEEP : (SleepState.DEEP_SLEEP = SleepState.LIGHT_SLEEP) = False := by decide
@[simp] theorem ssne_DEEP_SLEEP_SPASM : (SleepState.DEEP_SLEEP = SleepState.SPASM) = False := by decide
@[simp] theorem ssne_DEEP_SLEEP_AWAKE : (SleepState.DEEP_SLEEP = SleepState.AWAKE) = False := by decide
@[simp] theorem ssne_LIGHT_SLEEP_UNKNOWN : (SleepState.LIGHT_SLEEP = SleepState.UNKNOWN) = False := by decide
@[simp] theorem ssne_LIGHT_SLEEP_NO_BREATHING : (SleepState.LIGHT_SLEEP = SleepState.NO_BREATHING) = False := by decide
@[simp] theorem ssne_LIGHT_SLEEP_DEEP_SLEEP : (SleepState.LIGHT_SLEEP = SleepState.DEEP_SLEEP) = False := by decide
@[simp] theorem ssne_LIGHT_SLEEP_SPASM : (SleepState.LIGHT_SLEEP = SleepState.SPASM) = False := by decide
@[simp] theorem ssne_LIGHT_SLEEP_AWAKE : (SleepState.LIGHT_SLEEP = SleepState.AWAKE) = False := by decide
@[simp] theorem ssne_SPASM_UNKNOWN : (SleepState.SPASM = SleepState.UNKNOWN) = False := by decide
@[simp] theorem ssne_SPASM_NO_BREATHING : (SleepState.SPASM = SleepState.NO_BREATHING) = False := by decide
@[simp] theorem ssne_SPASM_DEEP_SLEEP : (SleepState.SPASM = SleepState.DEEP_SLEEP) = False := by decide
@[simp] theorem ssne_SPASM_LIGHT_SLEEP : (SleepState.SPASM = SleepState.LIGHT_SLEEP) = False := by decide
@[simp] theorem ssne_SPASM_AWAKE : (SleepState.SPASM = SleepState.AWAKE) = False := by decide
@[simp] theorem ssne_AWAKE_UNKNOWN : (SleepState.AWAKE = SleepState.UNKNOWN) = False := by decide
@[simp] theorem ssne_AWAKE_NO_BREATHING : (SleepState.AWAKE = SleepState.NO_BREATHING) = False := by decide
@[simp] theorem ssne_AWAKE_DEEP_SLEEP : (SleepState.AWAKE = SleepState.DEEP_SLEEP) = False := by decide
@[simp] theorem ssne_AWAKE_LIGHT_SLEEP : (SleepState.AWAKE = SleepState.LIGHT_SLEEP) = False := by decide
@[simp] theorem ssne_AWAKE_SPASM : (SleepState.AWAKE = SleepState.SPASM) = False := by decide
@[simp] theorem strne_0_1 : ("unknown" = "deep") = False := by decide
@[simp] theorem strne_0_2 : ("unknown" = "light") = False := by decide
@[simp] theorem strne_0_3 : ("unknown" = "transitional") = False := by decide
@[simp] theorem strne_1_0 : ("deep" = "unknown") = False := by decide
@[simp] theorem strne_1_2 : ("deep" = "light") = False := by decide
@[simp] theorem strne_1_3 : ("deep" = "transitional") = False := by decide
@[simp] theorem strne_2_0 : ("light" = "unknown") = False := by decide
@[simp] theorem strne_2_1 : ("light" = "deep") = False := by decide
@[simp] theorem strne_2_3 : ("light" = "transitional") = False := by decide
@[simp] theorem strne_3_0 : ("transitional" = "unknown") = False := by decide
@[simp] theorem strne_3_1 : ("transitional" = "deep") = False := by decide
@[simp] theorem strne_3_2 : ("transitional" = "light") = False := by decide

theorem none_eq_some_eq_false (x : α) : (none = some x) = False := by simp

theorem some_eq_none_eq_false (x : α) : (some x = none) = False := by simp


/-! Shape lemmas for the stages of `SleepManager.update`. -/

theorem ingest_fields (m t : ℚ) (s : SleepManager) :
    (ingest m t s).current_state = s.current_state ∧
    (ingest m t s).pre_spasm_state = s.pre_spasm_state ∧
    (ingest m t s).pending_state = s.pending_state ∧
    (ingest m t s).pending_state_time = s.pending_state_time ∧
    (ingest m t s).spasm_start_time = s.spasm_start_time ∧
    (ingest m t s).total_sleep_seconds = s.total_sleep_seconds ∧
    (ingest m t s).deep_sleep_seconds = s.deep_sleep_seconds ∧
    (ingest m t s).light_sleep_seconds = s.light_sleep_seconds ∧
    (ingest m t s).last_update_time = s.last_update_time := by
  simp only [ingest]
  split <;> exact ⟨rfl, rfl, rfl, rfl, rfl, rfl, rfl, rfl, rfl⟩

theorem updateMetrics_fields (t : ℚ) (s : SleepManager) :
    (updateMetrics t s).current_state = s.current_state ∧
    (updateMetrics t s).pre_spasm_state = s.pre_spasm_state ∧
    (updateMetrics t s).session_start_time = s.session_start_time := by
  unfold updateMetrics
  split_ifs <;> exact ⟨rfl, rfl, rfl⟩

theorem updateMetrics_totals (t : ℚ) (s : SleepManager) :
    (updateMetrics t s).total_sleep_seconds =
      s.total_sleep_seconds +
        (if (s.current_state = .DEEP_SLEEP ∨ s.current_state = .LIGHT_SLEEP ∨
              s.current_state = .SPASM) ∧ s.last_update_time > 0
         then t - s.last_update_time else 0) ∧
    (updateMetrics t s).deep_sleep_seconds =
      s.deep_sleep_seconds +
        (if s.current_state = .DEEP_SLEEP ∧ s.last_update_time > 0
         then t - s.last_update_time else 0) ∧
    (updateMetrics t s).light_sleep_seconds =
      s.light_sleep_seconds +
        (if (s.current_state = .LIGHT_SLEEP ∨ s.current_state = .SPASM) ∧
              s.last_update_time > 0
         then t - s.last_update_time else 0) := by
  unfold updateMetrics
  split_ifs <;> simp_all

theorem executeTransition_snd (n : SleepState) (t : ℚ) (r : String) (s : SleepManager) :
    (executeTransition n t r s).2 = some (s.current_state, n) := rfl

theorem executeTransition_current (n : SleepState) (t : ℚ) (r : String) (s : SleepManager) :
    (executeTransition n t r s).1.current_state = n := rfl

theorem executeTransition_pending (n : SleepState) (t : ℚ) (r : String) (s : SleepManager) :
    (executeTransition n t r s).1.pending_state = none := rfl

theorem executeTransition_pre_spasm (n : SleepState) (t : ℚ) (r : String) (s : SleepManager) :
    (executeTransition n t r s).1.pre_spasm_state =
      if n = .SPASM then some s.current_state else s.pre_spasm_state := by
  unfold executeTransition
  by_cases h1 : n = .SPASM <;>
    cases hls : s.last_sleep_start <;>
      cases hcs : s.current_cycle_start <;>
        simp [h1, hls, hcs] <;> split_ifs <;> simp

/-! Classifier and transition-table lemmas. -/

theorem determineState_ne_unknown (s : SleepManager) (a : Analysis) :
    determineState s a ≠ .UNKNOWN := by
  unfold determineState
  split_ifs <;> simp_all

theorem determineState_spasm (s : SleepManager) (a : Analysis)
    (h : determineState s a = .SPASM) :
    s.current_state = .DEEP_SLEEP ∨ s.current_state = .LIGHT_SLEEP ∨
      s.current_state = .SPASM := by
  unfold determineState at h
  split_ifs at h <;> simp_all

theorem spasm_mem_valid (A : SleepState) (h : SleepState.SPASM ∈ VALID_TRANSITIONS A) :
    A = .DEEP_SLEEP ∨ A = .LIGHT_SLEEP := by
  cases A <;> revert h <;> decide

theorem mem_valid_ne_unknown (A B : SleepState) (h : B ∈ VALID_TRANSITIONS A) :
    B ≠ .UNKNOWN := by
  cases A <;> cases B <;> revert h <;> decide

theorem effectiveTarget_mem (target : SleepState) (s : SleepManager)
    (hU : target ≠ .UNKNOWN)
    (hS : target = .SPASM →
      s.current_state = .DEEP_SLEEP ∨ s.current_state = .LIGHT_SLEEP ∨
        s.current_state = .SPASM) :
    effectiveTarget s target = s.current_state ∨
      effectiveTarget s target ∈ VALID_TRANSITIONS s.current_state := by
  unfold effectiveTarget findValidTransition
  split_ifs with h hA hN
  · right
    rw [hA]
    decide
  · right
    rcases h with ⟨hmem, hne⟩
    rw [hN] at hne ⊢
    cases target
    · exact absurd rfl hU
    · exact absurd rfl hne
    · decide
    · decide
    · rcases hS rfl with h | h | h <;> rw [hN] at h <;> exact absurd h (by decide)
    · decide
  · left; rfl
  · rcases Decidable.em (target = s.current_state) with he | he
    · left; exact he
    · right
      by_cases hmem : target ∈ VALID_TRANSITIONS s.current_state
      · exact hmem
      · exact absurd ⟨hmem, he⟩ h

/-! The hysteresis controller commits only legal transitions. -/

theorem handleTransition_cases (target : SleepState) (t : ℚ) (s : SleepManager)
    (hU : target ≠ .UNKNOWN)
    (hS : target = .SPASM →
      s.current_state = .DEEP_SLEEP ∨ s.current_state = .LIGHT_SLEEP ∨
        s.current_state = .SPASM)
    (hInv : preSpasmInv s) :
    ((handleTransition target t s).2 = none ∧
      (handleTransition target t s).1.current_state = s.current_state ∧
      (handleTransition target t s).1.pre_spasm_state = s.pre_spasm_state) ∨
    (∃ B, (handleTransition target t s).2 = some (s.current_state, B) ∧
      (handleTransition target t s).1.current_state = B ∧
      B ∈ VALID_TRANSITIONS s.current_state ∧
      (handleTransition target t s).1.pre_spasm_state =
        (if B = .SPASM then some s.current_state else s.pre_spasm_state)) := by
  by_cases h1 : effectiveTarget s target = s.current_state
  · by_cases h2 : s.current_state = .SPASM ∧
        t - s.spasm_start_time.getD 0 > SPASM_WINDOW
    · have heq : handleTransition target t s =
          executeTransition (s.pre_spasm_state.getD .LIGHT_SLEEP) t "spasm_ended" s := by
        unfold handleTransition
        rw [if_pos h1, if_pos h2, if_pos (executeTransition_pending _ _ _ _)]
      right
      refine ⟨s.pre_spasm_state.getD .LIGHT_SLEEP, ?_, ?_, ?_, ?_⟩
      · rw [heq, executeTransition_snd]
      · rw [heq, executeTransition_current]
      · rw [h2.1]
        rcases hps : s.pre_spasm_state with _ | x
        · decide
        · rcases hInv x hps with h | h <;> rw [h] <;> decide
      · rw [heq, executeTransition_pre_spasm]
    · have heq2 : (handleTransition target t s).2 = none ∧
          (handleTransition target t s).1.current_state = s.current_state ∧
          (handleTransition target t s).1.pre_spasm_state = s.pre_spasm_state := by
        unfold handleTransition
        rw [if_pos h1, if_neg h2]
        rcases hp : s.pending_state with _ | p <;> simp [hp]
      exact Or.inl heq2
  · by_cases h3 : s.pending_state = some (effectiveTarget s target)
    · by_cases h4 : t - s.pending_state_time.getD 0 ≥
          getConfirmationTime s.current_state (effectiveTarget s target)
      · have heq : handleTransition target t s =
            executeTransition (effectiveTarget s target) t "confirmed" s := by
          unfold handleTransition
          rw [if_neg h1, if_pos h3, if_pos h4]
        right
        refine ⟨effectiveTarget s target, ?_, ?_, ?_, ?_⟩
        · rw [heq, executeTransition_snd]
        · rw [heq, executeTransition_current]
        · rcases effectiveTarget_mem target s hU hS with h | h
          · exact absurd h h1
          · exact h
        · rw [heq, executeTransition_pre_spasm]
      · have heq : handleTransition target t s = (s, none) := by
          unfold handleTransition
          rw [if_neg h1, if_pos h3, if_neg h4]
        rw [heq]
        exact Or.inl ⟨rfl, rfl, rfl⟩
    · have hA : (handleTransition target t s).2 = none := by
        unfold handleTransition
        rw [if_neg h1, if_neg h3]
      have hB : (handleTransition target t s).1.current_state = s.current_state := by
        unfold handleTransition
        rw [if_neg h1, if_neg h3]
      have hC : (handleTransition target t s).1.pre_spasm_state = s.pre_spasm_state := by
        unfold handleTransition
        rw [if_neg h1, if_neg h3]
      exact Or.inl ⟨hA, hB, hC⟩

/-! Lifting the controller lemma through the whole `update` call. -/

theorem updateWithCommit_cases (m t : ℚ) (s : SleepManager) (hInv : preSpasmInv s) :
    ((updateWithCommit m t s).2 = none ∧
      (updateWithCommit m t s).1.current_state = s.current_state ∧
      (updateWithCommit m t s).1.pre_spasm_state = s.pre_spasm_state) ∨
    (∃ B, (updateWithCommit m t s).2 = some (s.current_state, B) ∧
      (updateWithCommit m t s).1.current_state = B ∧
      B ∈ VALID_TRANSITIONS s.current_state ∧
      (updateWithCommit m t s).1.pre_spasm_state =
        (if B = .SPASM then some s.current_state else s.pre_spasm_state)) := by
  have hf := ingest_fields m t s
  have hU := determineState_ne_unknown (ingest m t s) (analyzeBuffer t (ingest m t s))
  have hS := fun h =>
    determineState_spasm (ingest m t s) (analyzeBuffer t (ingest m t s)) h
  have hInv1 : preSpasmInv (ingest m t s) := by
    intro x hx
    exact hInv x (hf.2.1 ▸ hx)
  have hmain := handleTransition_cases
    (determineState (ingest m t s) (analyzeBuffer t (ingest m t s))) t (ingest m t s)
    hU hS hInv1
  have d2 : (updateWithCommit m t s).2 =
      (handleTransition (determineState (ingest m t s) (analyzeBuffer t (ingest m t s)))
        t (ingest m t s)).2 := rfl
  have dc : (updateWithCommit m t s).1.current_state =
      (handleTransition (determineState (ingest m t s) (analyzeBuffer t (ingest m t s)))
        t (ingest m t s)).1.current_state :=
    (updateMetrics_fields t _).1
  have dp : (updateWithCommit m t s).1.pre_spasm_state =
      (handleTransition (determineState (ingest m t s) (analyzeBuffer t (ingest m t s)))
        t (ingest m t s)).1.pre_spasm_state :=
    (updateMetrics_fields t _).2.1
  rcases hmain with ⟨h2, hc, hp⟩ | ⟨B, h2, hc, hmem, hp⟩
  · exact Or.inl ⟨d2.trans h2, (dc.trans hc).trans hf.1, (dp.trans hp).trans hf.2.1⟩
  · refine Or.inr ⟨B, ?_, dc.trans hc, hf.1 ▸ hmem, ?_⟩
    · rw [d2, h2, hf.1]
    · rw [dp, hp, hf.1, hf.2.1]

theorem preSpasmInv_update (m t : ℚ) (s : SleepManager) (hInv : preSpasmInv s) :
    preSpasmInv (update m t s) := by
  have hud : update m t s = (updateWithCommit m t s).1 := rfl
  rcases updateWithCommit_cases m t s hInv with ⟨_, _, hp⟩ | ⟨B, _, _, hmem, hp⟩
  · intro x hx
    rw [hud, hp] at hx
    exact hInv x hx
  · intro x hx
    rw [hud, hp] at hx
    by_cases hB : B = .SPASM
    · rw [if_pos hB] at hx
      have hcur := spasm_mem_valid s.current_state (hB ▸ hmem)
      rw [← Option.some.injEq s.current_state x |>.mp hx]
      exact hcur
    · rw [if_neg hB] at hx
      exact hInv x hx

theorem update_current_ne_unknown (m t : ℚ) (s : SleepManager) (hInv : preSpasmInv s)
    (h : s.current_state ≠ .UNKNOWN) :
    (update m t s).current_state ≠ .UNKNOWN := by
  have hud : update m t s = (updateWithCommit m t s).1 := rfl
  rcases updateWithCommit_cases m t s hInv with ⟨_, hc, _⟩ | ⟨B, _, hc, hmem, _⟩
  · rw [hud, hc]
    exact h
  · rw [hud, hc]
    exact mem_valid_ne_unknown s.current_state B hmem

theorem run_nil (s : SleepManager) : run [] s = s := rfl

theorem run_cons (p : ℚ × ℚ) (tr : List (ℚ × ℚ)) (s : SleepManager) :
    run (p :: tr) s = run tr (update p.1 p.2 s) := rfl

theorem run_append (t1 t2 : List (ℚ × ℚ)) (s : SleepManager) :
    run (t1 ++ t2) s = run t2 (run t1 s) := by
  simp [run, List.foldl_append]

theorem preSpasmInv_init : preSpasmInv initManager := by
  intro x hx
  simp [initManager] at hx

theorem preSpasmInv_run (tr : List (ℚ × ℚ)) (s : SleepManager) (hInv : preSpasmInv s) :
    preSpasmInv (run tr s) := by
  induction tr generalizing s with
  | nil => exact hInv
  | cons p tr ih => exact ih _ (preSpasmInv_update p.1 p.2 s hInv)

theorem run_current_ne_unknown (tr : List (ℚ × ℚ)) (s : SleepManager)
    (hInv : preSpasmInv s) (h : s.current_state ≠ .UNKNOWN) :
    (run tr s).current_state ≠ .UNKNOWN := by
  induction tr generalizing s with
  | nil => exact h
  | cons p tr ih =>
    exact ih _ (preSpasmInv_update p.1 p.2 s hInv)
      (update_current_ne_unknown p.1 p.2 s hInv h)


/-! Evaluation of the concrete test trace, one update at a time. -/

theorem wStep1 : update 20000 1 initManager = wS1 := by
  unfold wS1 initManager
  norm_num [update, updateWithCommit, ingest, cleanBuffer, processMotion,
    analyzeBuffer, determineState, effectiveTarget, findValidTransition,
    getConfirmationTime, handleTransition, executeTransition, updateMetrics,
    initManager, defaultThresholds, BreathingAnalyzer.reset, listMean, listMax,
    dequeAppend, takeLast, sampleVariance, BreathingAnalyzer.variabilitySq,
    BreathingAnalyzer.sleepPhase, BREATH_PEAK_THRESHOLD, MIN_BREATH_INTERVAL,
    MAX_BREATH_INTERVAL, LOW_VARIABILITY_THRESHOLD, HIGH_VARIABILITY_THRESHOLD,
    BUFFER_DURATION, ANALYSIS_WINDOW, SPASM_WINDOW, CONFIRM_AWAKE_SECONDS,
    CONFIRM_SLEEP_SECONDS, CONFIRM_NO_BREATHING_SECONDS, CONFIRM_PHASE_CHANGE_SECONDS,
    VALID_TRANSITIONS, none_eq_some_eq_false, some_eq_none_eq_false]

theorem wStep2 : update 20000 2 wS1 = wS2 := by
  unfold wS2 wS1 initManager
  norm_num [update, updateWithCommit, ingest, cleanBuffer, processMotion,
    analyzeBuffer, determineState, effectiveTarget, findValidTransition,
    getConfirmationTime, handleTransition, executeTransition, updateMetrics,
    initManager, defaultThresholds, BreathingAnalyzer.reset, listMean, listMax,
    dequeAppend, takeLast, sampleVariance, BreathingAnalyzer.variabilitySq,
    BreathingAnalyzer.sleepPhase, BREATH_PEAK_THRESHOLD, MIN_BREATH_INTERVAL,
    MAX_BREATH_INTERVAL, LOW_VARIABILITY_THRESHOLD, HIGH_VARIABILITY_THRESHOLD,
    BUFFER_DURATION, ANALYSIS_WINDOW, SPASM_WINDOW, CONFIRM_AWAKE_SECONDS,
    CONFIRM_SLEEP_SECONDS, CONFIRM_NO_BREATHING_SECONDS, CONFIRM_PHASE_CHANGE_SECONDS,
    VALID_TRANSITIONS, none_eq_some_eq_false, some_eq_none_eq_false]

theorem wStep3 : update 20000 3 wS2 = wS3 := by
  unfold wS3 wS2 wS1 initManager
  norm_num [update, updateWithCommit, ingest, cleanBuffer, processMotion,
    analyzeBuffer, determineState, effectiveTarget, findValidTransition,
    getConfirmationTime, handleTransition, executeTransition, updateMetrics,
    initManager, defaultThresholds, BreathingAnalyzer.reset, listMean, listMax,
    dequeAppend, takeLast, sampleVariance, BreathingAnalyzer.variabilitySq,
    BreathingAnalyzer.sleepPhase, BREATH_PEAK_THRESHOLD, MIN_BREATH_INTERVAL,
    MAX_BREATH_INTERVAL, LOW_VARIABILITY_THRESHOLD, HIGH_VARIABILITY_THRESHOLD,
    BUFFER_DURATION, ANALYSIS_WINDOW, SPASM_WINDOW, CONFIRM_AWAKE_SECONDS,
    CONFIRM_SLEEP_SECONDS, CONFIRM_NO_BREATHING_SECONDS, CONFIRM_PHASE_CHANGE_SECONDS,
    VALID_TRANSITIONS, none_eq_some_eq_false, some_eq_none_eq_false]

theorem wStep4 : update 20000 4 wS3 = wS4 := by
  unfold wS4 wS3 wS2 wS1 initManager
  norm_num [update, updateWithCommit, ingest, cleanBuffer, processMotion,
    analyzeBuffer, determineState, effectiveTarget, findValidTransition,
    getConfirmationTime, handleTransition, executeTransition, updateMetrics,
    initManager, defaultThresholds, BreathingAnalyzer.reset, listMean, listMax,
    dequeAppend, takeLast, sampleVariance, BreathingAnalyzer.variabilitySq,
    BreathingAnalyzer.sleepPhase, BREATH_PEAK_THRESHOLD, MIN_BREATH_INTERVAL,
    MAX_BREATH_INTERVAL, LOW_VARIABILITY_THRESHOLD, HIGH_VARIABILITY_THRESHOLD,
    BUFFER_DURATION, ANALYSIS_WINDOW, SPASM_WINDOW, CONFIRM_AWAKE_SECONDS,
    CONFIRM_SLEEP_SECONDS, CONFIRM_NO_BREATHING_SECONDS, CONFIRM_PHASE_CHANGE_SECONDS,
    VALID_TRANSITIONS, none_eq_some_eq_false, some_eq_none_eq_false]

theorem wStep5 : update 20000000 5 wS4 = wS5 := by
  unfold wS5 wS4 wS3 wS2 wS1 initManager
  norm_num [update, updateWithCommit, ingest, cleanBuffer, processMotion,
    analyzeBuffer, determineState, effectiveTarget, findValidTransition,
    getConfirmationTime, handleTransition, executeTransition, updateMetrics,
    initManager, defaultThresholds, BreathingAnalyzer.reset, listMean, listMax,
    dequeAppend, takeLast, sampleVariance, BreathingAnalyzer.variabilitySq,
    BreathingAnalyzer.sleepPhase, BREATH_PEAK_THRESHOLD, MIN_BREATH_INTERVAL,
    MAX_BREATH_INTERVAL, LOW_VARIABILITY_THRESHOLD, HIGH_VARIABILITY_THRESHOLD,
    BUFFER_DURATION, ANALYSIS_WINDOW, SPASM_WINDOW, CONFIRM_AWAKE_SECONDS,
    CONFIRM_SLEEP_SECONDS, CONFIRM_NO_BREATHING_SECONDS, CONFIRM_PHASE_CHANGE_SECONDS,
    VALID_TRANSITIONS, none_eq_some_eq_false, some_eq_none_eq_false]

theorem wStep6 : update 20000 (28/5) wS5 = wS6 := by
  unfold wS6 wS5 wS4 wS3 wS2 wS1 initManager
  norm_num [update, updateWithCommit, ingest, cleanBuffer, processMotion,
    analyzeBuffer, determineState, effectiveTarget, findValidTransition,
    getConfirmationTime, handleTransition, executeTransition, updateMetrics,
    initManager, defaultThresholds, BreathingAnalyzer.reset, listMean, listMax,
    dequeAppend, takeLast, sampleVariance, BreathingAnalyzer.variabilitySq,
    BreathingAnalyzer.sleepPhase, BREATH_PEAK_THRESHOLD, MIN_BREATH_INTERVAL,
    MAX_BREATH_INTERVAL, LOW_VARIABILITY_THRESHOLD, HIGH_VARIABILITY_THRESHOLD,
    BUFFER_DURATION, ANALYSIS_WINDOW, SPASM_WINDOW, CONFIRM_AWAKE_SECONDS,
    CONFIRM_SLEEP_SECONDS, CONFIRM_NO_BREATHING_SECONDS, CONFIRM_PHASE_CHANGE_SECONDS,
    VALID_TRANSITIONS, none_eq_some_eq_false, some_eq_none_eq_false]


theorem wRun3 : run [(20000, 1), (20000, 2), (20000, 3)] initManager = wS3 := by
  simp [run_cons, run_nil, wStep1, wStep2, wStep3]

theorem wRun4 : run [(20000, 1), (20000, 2), (20000, 3), (20000, 4)] initManager = wS4 := by
  simp [run_cons, run_nil, wStep1, wStep2, wStep3, wStep4]

theorem wRun6 :
    run [(20000, 1), (20000, 2), (20000, 3), (20000, 4), (20000000, 5), (20000, 28/5)]
      initManager = wS6 := by
  simp [run_cons, run_nil, wStep1, wStep2, wStep3, wStep4, wStep5, wStep6]

theorem wCommit4 :
    (updateWithCommit 20000 4 wS3).2 = some (.UNKNOWN, .LIGHT_SLEEP) := by
  unfold wS3 wS2 wS1 initManager
  norm_num [update, updateWithCommit, ingest, cleanBuffer, processMotion,
    analyzeBuffer, determineState, effectiveTarget, findValidTransition,
    getConfirmationTime, handleTransition, executeTransition, updateMetrics,
    initManager, defaultThresholds, BreathingAnalyzer.reset, listMean, listMax,
    dequeAppend, takeLast, sampleVariance, BreathingAnalyzer.variabilitySq,
    BreathingAnalyzer.sleepPhase, BREATH_PEAK_THRESHOLD, MIN_BREATH_INTERVAL,
    MAX_BREATH_INTERVAL, LOW_VARIABILITY_THRESHOLD, HIGH_VARIABILITY_THRESHOLD,
    BUFFER_DURATION, ANALYSIS_WINDOW, SPASM_WINDOW, CONFIRM_AWAKE_SECONDS,
    CONFIRM_SLEEP_SECONDS, CONFIRM_NO_BREATHING_SECONDS, CONFIRM_PHASE_CHANGE_SECONDS,
    VALID_TRANSITIONS, none_eq_some_eq_false, some_eq_none_eq_false]

/-- C1: on every reachable engine state, a transition `(A, B)` committed by
an `update` call (whether a timed confirmation or the forced spasm-ended
revert) satisfies: `B` is in the allowed-transition row for `A`, or `B` is
the remap target for a disallowed candidate from `A` (LIGHT_SLEEP when `A`
is AWAKE; the candidate unchanged when `A` is NO_BREATHING; otherwise no
transition is attempted). -/
theorem claim_C1_transition_legality (tr : List (ℚ × ℚ)) (m t : ℚ) (A B : SleepState)
    (h : (updateWithCommit m t (run tr initManager)).2 = some (A, B)) :
    B ∈ VALID_TRANSITIONS A ∨ (A = .AWAKE ∧ B = .LIGHT_SLEEP) ∨ A = .NO_BREATHING := by
  have hInv := preSpasmInv_run tr initManager preSpasmInv_init
  rcases updateWithCommit_cases m t (run tr initManager) hInv with
    ⟨h2, _, _⟩ | ⟨B', h2, _, hmem, _⟩
  · rw [h2] at h
    exact absurd h (by simp)
  · rw [h2] at h
    have hAB : (run tr initManager).current_state = A ∧ B' = B := by simpa using h
    rw [hAB.1, hAB.2] at hmem
    exact Or.inl hmem

theorem claim_C1_witness :
    (updateWithCommit 20000 4 (run [(20000, 1), (20000, 2), (20000, 3)] initManager)).2 =
        some (SleepState.UNKNOWN, SleepState.LIGHT_SLEEP) ∧
      (SleepState.LIGHT_SLEEP ∈ VALID_TRANSITIONS SleepState.UNKNOWN ∨
        (SleepState.UNKNOWN = SleepState.AWAKE ∧
          SleepState.LIGHT_SLEEP = SleepState.LIGHT_SLEEP) ∨
        SleepState.UNKNOWN = SleepState.NO_BREATHING) := by
  have h : (updateWithCommit 20000 4 (run [(20000, 1), (20000, 2), (20000, 3)]
      initManager)).2 = some (SleepState.UNKNOWN, SleepState.LIGHT_SLEEP) := by
    rw [wRun3]
    exact wCommit4
  exact ⟨h, claim_C1_transition_legality [(20000, 1), (20000, 2), (20000, 3)] 20000 4
    SleepState.UNKNOWN SleepState.LIGHT_SLEEP h⟩

/-- C8: within a session, once the current state has moved away from
UNKNOWN, no further sequence of `update` calls ever returns it to
UNKNOWN. -/
theorem claim_C8_unknown_never_returns (tr1 tr2 : List (ℚ × ℚ))
    (h : (run tr1 initManager).current_state ≠ .UNKNOWN) :
    (run (tr1 ++ tr2) initManager).current_state ≠ .UNKNOWN := by
  rw [run_append]
  exact run_current_ne_unknown tr2 _ (preSpasmInv_run tr1 _ preSpasmInv_init) h

theorem claim_C8_witness :
    (run [(20000, 1), (20000, 2), (20000, 3), (20000, 4)] initManager).current_state ≠
        SleepState.UNKNOWN ∧
      (run ([(20000, 1), (20000, 2), (20000, 3), (20000, 4)] ++
          [(20000000, 5), (20000, 28/5)]) initManager).current_state ≠
        SleepState.UNKNOWN := by
  have h : (run [(20000, 1), (20000, 2), (20000, 3), (20000, 4)]
      initManager).current_state ≠ SleepState.UNKNOWN := by
    rw [wRun4]
    decide
  exact ⟨h, claim_C8_unknown_never_returns [(20000, 1), (20000, 2), (20000, 3), (20000, 4)]
    [(20000000, 5), (20000, 28/5)] h⟩


theorem handleTransition_same (target : SleepState) (t : ℚ) (s : SleepManager)
    (h1 : effectiveTarget s target = s.current_state)
    (h2 : ¬(s.current_state = .SPASM ∧ t - s.spasm_start_time.getD 0 > SPASM_WINDOW)) :
    (handleTransition target t s).1.current_state = s.current_state ∧
    (handleTransition target t s).1.total_sleep_seconds = s.total_sleep_seconds ∧
    (handleTransition target t s).1.deep_sleep_seconds = s.deep_sleep_seconds ∧
    (handleTransition target t s).1.light_sleep_seconds = s.light_sleep_seconds ∧
    (handleTransition target t s).1.last_update_time = s.last_update_time := by
  unfold handleTransition
  rw [if_pos h1, if_neg h2]
  rcases hp : s.pending_state with _ | p <;> simp [hp]

/-- C3 (amended): an `update` call whose (possibly remapped) candidate
equals the current state never mutates `current_state` — except for the
forced spasm-ended revert, i.e. unless the current state is SPASM and more
than SPASM_WINDOW seconds have elapsed since the spasm began — and in that
non-revert case the sleep-time counters grow by exactly the elapsed
wall-clock delta attributed to the current state. -/
theorem claim_C3_same_candidate_idempotent (m t : ℚ) (s : SleepManager)
    (hc : effectiveTarget (ingest m t s)
        (determineState (ingest m t s) (analyzeBuffer t (ingest m t s))) = s.current_state)
    (hrev : ¬(s.current_state = .SPASM ∧ t - s.spasm_start_time.getD 0 > SPASM_WINDOW)) :
    (update m t s).current_state = s.current_state ∧
    (update m t s).total_sleep_seconds =
      s.total_sleep_seconds +
        (if (s.current_state = .DEEP_SLEEP ∨ s.current_state = .LIGHT_SLEEP ∨
              s.current_state = .SPASM) ∧ s.last_update_time > 0
         then t - s.last_update_time else 0) ∧
    (update m t s).deep_sleep_seconds =
      s.deep_sleep_seconds +
        (if s.current_state = .DEEP_SLEEP ∧ s.last_update_time > 0
         then t - s.last_update_time else 0) ∧
    (update m t s).light_sleep_seconds =
      s.light_sleep_seconds +
        (if (s.current_state = .LIGHT_SLEEP ∨ s.current_state = .SPASM) ∧
              s.last_update_time > 0
         then t - s.last_update_time else 0) := by
  obtain ⟨hfc, hfpre, hfp, hfpt, hfs, hft, hfd, hfl, hflu⟩ := ingest_fields m t s
  have h1 : effectiveTarget (ingest m t s)
      (determineState (ingest m t s) (analyzeBuffer t (ingest m t s))) =
      (ingest m t s).current_state := by
    rw [hfc]
    exact hc
  have h2 : ¬((ingest m t s).current_state = .SPASM ∧
      t - (ingest m t s).spasm_start_time.getD 0 > SPASM_WINDOW) := by
    rw [hfc, hfs]
    exact hrev
  obtain ⟨hHc, hHt, hHd, hHl, hHu⟩ := handleTransition_same
    (determineState (ingest m t s) (analyzeBuffer t (ingest m t s))) t (ingest m t s) h1 h2
  obtain ⟨hMc, _, _⟩ := updateMetrics_fields t
    (handleTransition (determineState (ingest m t s) (analyzeBuffer t (ingest m t s)))
      t (ingest m t s)).1
  obtain ⟨hMt, hMd, hMl⟩ := updateMetrics_totals t
    (handleTransition (determineState (ingest m t s) (analyzeBuffer t (ingest m t s)))
      t (ingest m t s)).1
  refine ⟨?_, ?_, ?_, ?_⟩
  · show (updateMetrics t _).current_state = s.current_state
    rw [hMc, hHc, hfc]
  · show (updateMetrics t _).total_sleep_seconds = _
    rw [hMt, hHt, hHc, hHu, hfc, hft, hflu]
  · show (updateMetrics t _).deep_sleep_seconds = _
    rw [hMd, hHd, hHc, hHu, hfc, hfd, hflu]
  · show (updateMetrics t _).light_sleep_seconds = _
    rw [hMl, hHl, hHc, hHu, hfc, hfl, hflu]

/-- C3 counterexample: `wS6` is reached by a concrete six-update trace and
is in state SPASM; the next update's (remapped) candidate equals the
current state SPASM, yet the update changes `current_state` to LIGHT_SLEEP
(the forced spasm-ended revert), refuting the claim as stated. -/
theorem claim_C3_counterexample :
    run [(20000, 1), (20000, 2), (20000, 3), (20000, 4), (20000000, 5), (20000, 28/5)]
        initManager = wS6 ∧
    effectiveTarget (ingest 20000 11 wS6)
        (determineState (ingest 20000 11 wS6) (analyzeBuffer 11 (ingest 20000 11 wS6))) =
      wS6.current_state ∧
    wS6.current_state = .SPASM ∧
    (update 20000 11 wS6).current_state = .LIGHT_SLEEP := by
  refine ⟨wRun6, ?_, by decide, ?_⟩
  · unfold wS6 wS5 wS4 wS3 wS2 wS1 initManager
    norm_num [update, updateWithCommit, ingest, cleanBuffer, processMotion,
    analyzeBuffer, determineState, effectiveTarget, findValidTransition,
    getConfirmationTime, handleTransition, executeTransition, updateMetrics,
    initManager, defaultThresholds, BreathingAnalyzer.reset, listMean, listMax,
    dequeAppend, takeLast, sampleVariance, BreathingAnalyzer.variabilitySq,
    BreathingAnalyzer.sleepPhase, BREATH_PEAK_THRESHOLD, MIN_BREATH_INTERVAL,
    MAX_BREATH_INTERVAL, LOW_VARIABILITY_THRESHOLD, HIGH_VARIABILITY_THRESHOLD,
    BUFFER_DURATION, ANALYSIS_WINDOW, SPASM_WINDOW, CONFIRM_AWAKE_SECONDS,
    CONFIRM_SLEEP_SECONDS, CONFIRM_NO_BREATHING_SECONDS, CONFIRM_PHASE_CHANGE_SECONDS,
    VALID_TRANSITIONS, none_eq_some_eq_false, some_eq_none_eq_false]
  · unfold wS6 wS5 wS4 wS3 wS2 wS1 initManager
    norm_num [update, updateWithCommit, ingest, cleanBuffer, processMotion,
    analyzeBuffer, determineState, effectiveTarget, findValidTransition,
    getConfirmationTime, handleTransition, executeTransition, updateMetrics,
    initManager, defaultThresholds, BreathingAnalyzer.reset, listMean, listMax,
    dequeAppend, takeLast, sampleVariance, BreathingAnalyzer.variabilitySq,
    BreathingAnalyzer.sleepPhase, BREATH_PEAK_THRESHOLD, MIN_BREATH_INTERVAL,
    MAX_BREATH_INTERVAL, LOW_VARIABILITY_THRESHOLD, HIGH_VARIABILITY_THRESHOLD,
    BUFFER_DURATION, ANALYSIS_WINDOW, SPASM_WINDOW, CONFIRM_AWAKE_SECONDS,
    CONFIRM_SLEEP_SECONDS, CONFIRM_NO_BREATHING_SECONDS, CONFIRM_PHASE_CHANGE_SECONDS,
    VALID_TRANSITIONS, none_eq_some_eq_false, some_eq_none_eq_false]

theorem claim_C3_witness :
    (update 20000 6 wS4).current_state = wS4.current_state ∧
    (update 20000 6 wS4).total_sleep_seconds =
      wS4.total_sleep_seconds +
        (if (wS4.current_state = .DEEP_SLEEP ∨ wS4.current_state = .LIGHT_SLEEP ∨
              wS4.current_state = .SPASM) ∧ wS4.last_update_time > 0
         then 6 - wS4.last_update_time else 0) ∧
    (update 20000 6 wS4).deep_sleep_seconds =
      wS4.deep_sleep_seconds +
        (if wS4.current_state = .DEEP_SLEEP ∧ wS4.last_update_time > 0
         then 6 - wS4.last_update_time else 0) ∧
    (update 20000 6 wS4).light_sleep_seconds =
      wS4.light_sleep_seconds +
        (if (wS4.current_state = .LIGHT_SLEEP ∨ wS4.current_state = .SPASM) ∧
              wS4.last_update_time > 0
         then 6 - wS4.last_update_time else 0) :=
  claim_C3_same_candidate_idempotent 20000 6 wS4
    (by
      unfold wS4 wS3 wS2 wS1 initManager
      norm_num [update, updateWithCommit, ingest, cleanBuffer, processMotion,
    analyzeBuffer, determineState, effectiveTarget, findValidTransition,
    getConfirmationTime, handleTransition, executeTransition, updateMetrics,
    initManager, defaultThresholds, BreathingAnalyzer.reset, listMean, listMax,
    dequeAppend, takeLast, sampleVariance, BreathingAnalyzer.variabilitySq,
    BreathingAnalyzer.sleepPhase, BREATH_PEAK_THRESHOLD, MIN_BREATH_INTERVAL,
    MAX_BREATH_INTERVAL, LOW_VARIABILITY_THRESHOLD, HIGH_VARIABILITY_THRESHOLD,
    BUFFER_DURATION, ANALYSIS_WINDOW, SPASM_WINDOW, CONFIRM_AWAKE_SECONDS,
    CONFIRM_SLEEP_SECONDS, CONFIRM_NO_BREATHING_SECONDS, CONFIRM_PHASE_CHANGE_SECONDS,
    VALID_TRANSITIONS, none_eq_some_eq_false, some_eq_none_eq_false])
    (by
      unfold wS4 wS3 wS2 wS1 initManager
      norm_num [update, updateWithCommit, ingest, cleanBuffer, processMotion,
    analyzeBuffer, determineState, effectiveTarget, findValidTransition,
    getConfirmationTime, handleTransition, executeTransition, updateMetrics,
    initManager, defaultThresholds, BreathingAnalyzer.reset, listMean, listMax,
    dequeAppend, takeLast, sampleVariance, BreathingAnalyzer.variabilitySq,
    BreathingAnalyzer.sleepPhase, BREATH_PEAK_THRESHOLD, MIN_BREATH_INTERVAL,
    MAX_BREATH_INTERVAL, LOW_VARIABILITY_THRESHOLD, HIGH_VARIABILITY_THRESHOLD,
    BUFFER_DURATION, ANALYSIS_WINDOW, SPASM_WINDOW, CONFIRM_AWAKE_SECONDS,
    CONFIRM_SLEEP_SECONDS, CONFIRM_NO_BREATHING_SECONDS, CONFIRM_PHASE_CHANGE_SECONDS,
    VALID_TRANSITIONS, none_eq_some_eq_false, some_eq_none_eq_false])


/-- C2 counterexample: a motion score of 6000000 fed to a fresh engine makes
the classifier return AWAKE, and it still does after
`set_thresholds(awake_threshold=999999999)`: the override does not suppress
the AWAKE branch, refuting Scenario D as stated. -/
theorem claim_C2_counterexample :
    classifyCandidate 6000000 1 initManager = .AWAKE ∧
    classifyCandidate 6000000 1 (setAwakeThreshold 999999999 initManager) = .AWAKE := by
  constructor <;>
    norm_num [classifyCandidate, setAwakeThreshold, update, updateWithCommit, ingest, cleanBuffer, processMotion,
    analyzeBuffer, determineState, effectiveTarget, findValidTransition,
    getConfirmationTime, handleTransition, executeTransition, updateMetrics,
    initManager, defaultThresholds, BreathingAnalyzer.reset, listMean, listMax,
    dequeAppend, takeLast, sampleVariance, BreathingAnalyzer.variabilitySq,
    BreathingAnalyzer.sleepPhase, BREATH_PEAK_THRESHOLD, MIN_BREATH_INTERVAL,
    MAX_BREATH_INTERVAL, LOW_VARIABILITY_THRESHOLD, HIGH_VARIABILITY_THRESHOLD,
    BUFFER_DURATION, ANALYSIS_WINDOW, SPASM_WINDOW, CONFIRM_AWAKE_SECONDS,
    CONFIRM_SLEEP_SECONDS, CONFIRM_NO_BREATHING_SECONDS, CONFIRM_PHASE_CHANGE_SECONDS,
    VALID_TRANSITIONS, none_eq_some_eq_false, some_eq_none_eq_false]

/-- C2 (amended): overriding `awake_threshold` does not affect the AWAKE
rule: for any override value, whenever the analysis is not no-motion and
satisfies the AWAKE rule (`high_movement_ratio > 0.5` and
`mean > MOVEMENT_THRESHOLD`), the classifier still returns AWAKE, and the
buffer analysis itself is unchanged by the override — the AWAKE rule reads
`MOVEMENT_THRESHOLD`, not `AWAKE_THRESHOLD`. -/
theorem claim_C2_awake_threshold_ineffective (v : ℚ) (s : SleepManager) (a : Analysis)
    (h0 : a.is_no_motion = false)
    (h1 : a.high_movement_frac > 5/10)
    (h2 : a.mean > s.thresholds.MOVEMENT_THRESHOLD) :
    determineState (setAwakeThreshold v s) a = .AWAKE ∧
    ∀ t, analyzeBuffer t (setAwakeThreshold v s) = analyzeBuffer t s := by
  constructor
  · unfold determineState setAwakeThreshold
    simp [h0, h1, h2]
  · intro t
    rfl

theorem claim_C2_witness :
    (⟨6000000, 1, false, 1, 6000000, 6000000, "unknown"⟩ : Analysis).is_no_motion = false ∧
    (⟨6000000, 1, false, 1, 6000000, 6000000, "unknown"⟩ : Analysis).high_movement_frac > 5/10 ∧
    (⟨6000000, 1, false, 1, 6000000, 6000000, "unknown"⟩ : Analysis).mean >
      initManager.thresholds.MOVEMENT_THRESHOLD ∧
    (determineState (setAwakeThreshold 999999999 initManager)
        ⟨6000000, 1, false, 1, 6000000, 6000000, "unknown"⟩ = .AWAKE ∧
      ∀ t, analyzeBuffer t (setAwakeThreshold 999999999 initManager) =
        analyzeBuffer t initManager) :=
  ⟨rfl, by norm_num, by norm_num [initManager, defaultThresholds],
    claim_C2_awake_threshold_ineffective 999999999 initManager
      ⟨6000000, 1, false, 1, 6000000, 6000000, "unknown"⟩ rfl (by norm_num)
      (by norm_num [initManager, defaultThresholds])⟩

/-- C6: the state classifier equals, for every state and analysis, the
rule-by-rule transcription of the specification's priority-ordered decision
list. -/
theorem claim_C6_classifier_priority (s : SleepManager) (a : Analysis) :
    determineState s a = determineStateSpec s a := by
  unfold determineState determineStateSpec
  split_ifs <;> simp_all

/-- C10: `get_recent_events(0)` on an engine with a non-empty event log
returns the complete event list in order, because the Python slice
`events[-0:]` is the whole list. -/
theorem claim_C10_get_recent_events_zero (s : SleepManager) (h : s.events ≠ []) :
    getRecentEvents 0 s = s.events := by
  unfold getRecentEvents pyLastSlice
  split_ifs <;> simp_all

theorem claim_C10_witness :
    wS4.events ≠ [] ∧ getRecentEvents 0 wS4 = wS4.events :=
  ⟨by decide, claim_C10_get_recent_events_zero wS4 (by decide)⟩


theorem executeTransition_session (n : SleepState) (t : ℚ) (r : String) (s : SleepManager) :
    (executeTransition n t r s).1.session_start_time = s.session_start_time := by
  unfold executeTransition
  by_cases h1 : n = .SPASM <;>
    cases hls : s.last_sleep_start <;>
      cases hcs : s.current_cycle_start <;>
        simp [h1, hls, hcs] <;> split_ifs <;> simp

theorem handleTransition_session (target : SleepState) (t : ℚ) (s : SleepManager) :
    (handleTransition target t s).1.session_start_time = s.session_start_time := by
  unfold handleTransition
  by_cases h1 : effectiveTarget s target = s.current_state
  · rw [if_pos h1]
    by_cases h2 : s.current_state = .SPASM ∧
        t - s.spasm_start_time.getD 0 > SPASM_WINDOW
    · rw [if_pos h2, if_pos (executeTransition_pending _ _ _ _)]
      exact executeTransition_session _ _ _ _
    · rw [if_neg h2]
      rcases hp : s.pending_state with _ | p <;> simp [hp]
  · rw [if_neg h1]
    by_cases h3 : s.pending_state = some (effectiveTarget s target)
    · rw [if_pos h3]
      by_cases h4 : t - s.pending_state_time.getD 0 ≥
          getConfirmationTime s.current_state (effectiveTarget s target)
      · rw [if_pos h4]
        exact executeTransition_session _ _ _ _
      · rw [if_neg h4]
    · rw [if_neg h3]

theorem ingest_session (m t : ℚ) (s : SleepManager) :
    (ingest m t s).session_start_time =
      if s.session_start_time = none then some t else s.session_start_time := by
  simp only [ingest]
  split <;> rfl

theorem update_session (m t : ℚ) (s : SleepManager) :
    (update m t s).session_start_time =
      if s.session_start_time = none then some t else s.session_start_time := by
  have h1 : (update m t s).session_start_time =
      (handleTransition (determineState (ingest m t s) (analyzeBuffer t (ingest m t s)))
        t (ingest m t s)).1.session_start_time :=
    (updateMetrics_fields t _).2.2
  rw [h1, handleTransition_session, ingest_session]

/-- C9: an `update` call on an engine with no started session does not
fail: it auto-starts the session at that sample's timestamp, so the session
duration is measured from this first update, and a later `stop_session`
persists the auto-started session whenever the accumulated sleep reaches
60 seconds. -/
theorem claim_C9_auto_start_session (m t : ℚ) (s : SleepManager)
    (h : s.session_start_time = none) :
    (update m t s).session_start_time = some t ∧
    (∀ now, sessionDuration now (update m t s) = now - t) ∧
    (∀ t2, (stopSession t2 (update m t s)).1.total_sleep_seconds ≥ 60 →
      (stopSession t2 (update m t s)).2 = true) := by
  have hsess : (update m t s).session_start_time = some t := by
    rw [update_session, if_pos h]
  refine ⟨hsess, ?_, ?_⟩
  · intro now
    simp [sessionDuration, hsess]
  · intro t2 hge
    unfold stopSession at hge ⊢
    rcases hls : (update m t s).last_sleep_start with _ | ls <;>
      simp [hls] at hge ⊢ <;>
        simp [hsess, hge]

theorem claim_C9_witness :
    (update 20000 1 initManager).session_start_time = some 1 ∧
    (∀ now, sessionDuration now (update 20000 1 initManager) = now - 1) ∧
    (∀ t2, (stopSession t2 (update 20000 1 initManager)).1.total_sleep_seconds ≥ 60 →
      (stopSession t2 (update 20000 1 initManager)).2 = true) :=
  claim_C9_auto_start_session 20000 1 initManager rfl


/-- C4: the sleep quality score is always within [0, 100]; it is exactly 0
when the session duration or the total accumulated sleep is below 60
seconds; otherwise it equals 100 minus the deep-sleep-ratio penalty
(<0.20 → 20, <0.35 → 10, >0.60 → 5), minus the excess-wake-up penalty
min(30, floor(excess × 10)) with excess = max(0, wake_ups − session_hours),
minus the spasm penalty min(10, spasm_count − 10) applied when
spasm_count > 10, minus a penalty of 10 when the current breathing
variability exceeds 0.4, the result clamped to [0, 100]. -/
theorem claim_C4_quality_score (sd ts ds : ℚ) (wc sc : Nat) (v : ℚ) :
    (0 ≤ calculateSleepQuality sd ts ds wc sc v ∧
      calculateSleepQuality sd ts ds wc sc v ≤ 100) ∧
    ((sd < 60 ∨ ts < 60) → calculateSleepQuality sd ts ds wc sc v = 0) ∧
    (¬(sd < 60 ∨ ts < 60) →
      calculateSleepQuality sd ts ds wc sc v =
        max 0 (min 100 ((100 : ℤ) -
          (if ds / max ts 1 < 2/10 then 20
           else if ds / max ts 1 < 35/100 then 10
           else if ds / max ts 1 > 6/10 then 5 else 0) -
          min 30 ⌊(max 0 ((wc : ℚ) - sd / 3600)) * 10⌋ -
          (if sc > 10 then min 10 ((sc : ℤ) - 10) else 0) -
          (if v > 4/10 then 10 else 0)))) := by
  refine ⟨?_, ?_, ?_⟩
  · unfold calculateSleepQuality
    simp only []
    split_ifs <;> omega
  · intro hlt
    unfold calculateSleepQuality
    rw [if_pos hlt]
  · intro hge
    unfold calculateSleepQuality
    rw [if_neg hge]
    simp only []
    split_ifs <;> omega

theorem claim_C4_witness :
    (0 ≤ calculateSleepQuality 3600 3600 1800 0 0 0 ∧
      calculateSleepQuality 3600 3600 1800 0 0 0 ≤ 100) ∧
    calculateSleepQuality 0 3600 1800 0 0 0 = 0 ∧
    calculateSleepQuality 3600 3600 1800 0 0 0 =
      max 0 (min 100 ((100 : ℤ) -
        (if (1800 : ℚ) / max 3600 1 < 2/10 then 20
         else if (1800 : ℚ) / max 3600 1 < 35/100 then 10
         else if (1800 : ℚ) / max 3600 1 > 6/10 then 5 else 0) -
        min 30 ⌊(max 0 (((0 : Nat) : ℚ) - 3600 / 3600)) * 10⌋ -
        (if (0 : Nat) > 10 then min 10 (((0 : Nat) : ℤ) - 10) else 0) -
        (if (0 : ℚ) > 4/10 then 10 else 0))) :=
  ⟨(claim_C4_quality_score 3600 3600 1800 0 0 0).1,
   (claim_C4_quality_score 0 3600 1800 0 0 0).2.1 (by norm_num),
   (claim_C4_quality_score 3600 3600 1800 0 0 0).2.2 (by norm_num)⟩


/-! Buffer lemmas: `_clean_buffer` keeps only a suffix of fresh samples. -/

theorem cleanBuffer_sublist (t : ℚ) (xs : List (ℚ × ℚ)) :
    List.Sublist (cleanBuffer t xs) xs := by
  induction xs with
  | nil => exact List.Sublist.refl _
  | cons p rest ih =>
    unfold cleanBuffer
    split_ifs
    · exact ih.trans (List.sublist_cons_self p rest)
    · exact List.Sublist.refl _

theorem cleanBuffer_bound (t : ℚ) (xs : List (ℚ × ℚ))
    (hs : xs.Pairwise (fun p q => p.1 ≤ q.1)) :
    ∀ p ∈ cleanBuffer t xs, t - BUFFER_DURATION ≤ p.1 := by
  induction xs with
  | nil =>
    intro p hp
    simp [cleanBuffer] at hp
  | cons q rest ih =>
    intro p hp
    unfold cleanBuffer at hp
    split_ifs at hp with h
    · exact ih (List.pairwise_cons.mp hs).2 p hp
    · rcases List.mem_cons.mp hp with rfl | hmem
      · linarith [not_lt.mp h]
      · have h1 := (List.pairwise_cons.mp hs).1 p hmem
        have h2 := not_lt.mp h
        linarith

theorem updateMetrics_buffer (t : ℚ) (s : SleepManager) :
    (updateMetrics t s).motion_buffer = s.motion_buffer := by
  unfold updateMetrics
  split_ifs <;> rfl

theorem executeTransition_buffer (n : SleepState) (t : ℚ) (r : String) (s : SleepManager) :
    (executeTransition n t r s).1.motion_buffer = s.motion_buffer := by
  unfold executeTransition
  by_cases h1 : n = .SPASM <;>
    cases hls : s.last_sleep_start <;>
      cases hcs : s.current_cycle_start <;>
        simp [h1, hls, hcs] <;> split_ifs <;> simp

theorem handleTransition_buffer (target : SleepState) (t : ℚ) (s : SleepManager) :
    (handleTransition target t s).1.motion_buffer = s.motion_buffer := by
  unfold handleTransition
  by_cases h1 : effectiveTarget s target = s.current_state
  · rw [if_pos h1]
    by_cases h2 : s.current_state = .SPASM ∧
        t - s.spasm_start_time.getD 0 > SPASM_WINDOW
    · rw [if_pos h2, if_pos (executeTransition_pending _ _ _ _)]
      exact executeTransition_buffer _ _ _ _
    · rw [if_neg h2]
      rcases hp : s.pending_state with _ | p <;> simp [hp]
  · rw [if_neg h1]
    by_cases h3 : s.pending_state = some (effectiveTarget s target)
    · rw [if_pos h3]
      by_cases h4 : t - s.pending_state_time.getD 0 ≥
          getConfirmationTime s.current_state (effectiveTarget s target)
      · rw [if_pos h4]
        exact executeTransition_buffer _ _ _ _
      · rw [if_neg h4]
    · rw [if_neg h3]

theorem ingest_buffer (m t : ℚ) (s : SleepManager) :
    (ingest m t s).motion_buffer = cleanBuffer t (s.motion_buffer ++ [(t, m)]) := by
  simp only [ingest]
  split <;> rfl

theorem update_buffer (m t : ℚ) (s : SleepManager) :
    (update m t s).motion_buffer = cleanBuffer t (s.motion_buffer ++ [(t, m)]) := by
  have h1 : (update m t s).motion_buffer =
      (handleTransition (determineState (ingest m t s) (analyzeBuffer t (ingest m t s)))
        t (ingest m t s)).1.motion_buffer := updateMetrics_buffer t _
  rw [h1, handleTransition_buffer, ingest_buffer]

theorem update_buffer_step (m t t0 : ℚ) (s : SleepManager)
    (hb : s.motion_buffer.Pairwise (fun p q => p.1 ≤ q.1))
    (hle : ∀ p ∈ s.motion_buffer, p.1 ≤ t0)
    (ht : t0 ≤ t) :
    (update m t s).motion_buffer.Pairwise (fun p q => p.1 ≤ q.1) ∧
    (∀ p ∈ (update m t s).motion_buffer, p.1 ≤ t) ∧
    (∀ p ∈ (update m t s).motion_buffer, t - BUFFER_DURATION ≤ p.1) := by
  have happ : (s.motion_buffer ++ [(t, m)]).Pairwise (fun p q => p.1 ≤ q.1) := by
    rw [List.pairwise_append]
    refine ⟨hb, List.pairwise_singleton _ _, ?_⟩
    intro a ha b hbmem
    rcases List.mem_singleton.mp hbmem with rfl
    exact le_trans (hle a ha) ht
  have hsub := cleanBuffer_sublist t (s.motion_buffer ++ [(t, m)])
  rw [update_buffer]
  refine ⟨happ.sublist hsub, ?_, cleanBuffer_bound t _ happ⟩
  intro p hp
  have hpmem := hsub.mem hp
  rcases List.mem_append.mp hpmem with hmem | hmem
  · exact le_trans (hle p hmem) ht
  · rcases List.mem_singleton.mp hmem with rfl
    exact le_refl t

theorem run_buffer_bound_aux (tr : List (ℚ × ℚ)) (s : SleepManager) (t0 : ℚ)
    (hb : s.motion_buffer.Pairwise (fun p q => p.1 ≤ q.1))
    (hle : ∀ p ∈ s.motion_buffer, p.1 ≤ t0)
    (hbd : ∀ p ∈ s.motion_buffer, t0 - BUFFER_DURATION ≤ p.1)
    (htr : tr.Pairwise (fun p q => p.2 ≤ q.2))
    (hge : ∀ p ∈ tr, t0 ≤ p.2) :
    (run tr s).motion_buffer.Pairwise (fun p q => p.1 ≤ q.1) ∧
    (∀ p ∈ (run tr s).motion_buffer, p.1 ≤ (tr.getLastD (0, t0)).2) ∧
    (∀ p ∈ (run tr s).motion_buffer, (tr.getLastD (0, t0)).2 - BUFFER_DURATION ≤ p.1) := by
  induction tr generalizing s t0 with
  | nil => exact ⟨hb, hle, hbd⟩
  | cons q rest ih =>
    have hq : t0 ≤ q.2 := hge q (List.mem_cons_self q rest)
    obtain ⟨hb', hle', hbd'⟩ := update_buffer_step q.1 q.2 t0 s hb hle hq
    have hrest :=
      ih (update q.1 q.2 s) q.2 hb' hle' hbd' (List.pairwise_cons.mp htr).2
        (fun p hp => (List.pairwise_cons.mp htr).1 p hp)
    have hlast : (q :: rest).getLastD ((0 : ℚ), t0) = rest.getLastD q := by
      rw [List.getLastD_cons]
    have hlast2 : rest.getLastD ((0 : ℚ), q.2) = rest.getLastD q ∨
        (rest.getLastD ((0 : ℚ), q.2)).2 = (rest.getLastD q).2 := by
      cases rest with
      | nil => exact Or.inr rfl
      | cons r rs => exact Or.inl (by rw [List.getLastD_cons, List.getLastD_cons])
    rw [run_cons, hlast]
    rcases hlast2 with he | he
    · rw [← he]
      exact hrest
    · refine ⟨hrest.1, ?_, ?_⟩
      · intro p hp
        rw [← he]
        exact hrest.2.1 p hp
      · intro p hp
        rw [← he]
        exact hrest.2.2 p hp

/-- C7: for every sequence of updates with non-decreasing sample
timestamps, after each update no sample in the motion buffer is more than
BUFFER_DURATION (60 s) older than the latest ingested timestamp: every
retained sample satisfies `timestamp ≥ latest − BUFFER_DURATION`. -/
theorem claim_C7_buffer_bound (tr : List (ℚ × ℚ))
    (hsort : tr.Pairwise (fun p q => p.2 ≤ q.2)) :
    ∀ p ∈ (run tr initManager).motion_buffer,
      (tr.getLastD (0, 0)).2 - BUFFER_DURATION ≤ p.1 := by
  cases tr with
  | nil =>
    intro p hp
    simp [run, initManager] at hp
  | cons q rest =>
    have hge : ∀ p ∈ q :: rest, q.2 ≤ p.2 := by
      intro p hp
      rcases List.mem_cons.mp hp with rfl | hmem
      · exact le_refl _
      · exact (List.pairwise_cons.mp hsort).1 p hmem
    have h := run_buffer_bound_aux (q :: rest) initManager q.2
      (by simp [initManager]) (by simp [initManager]) (by simp [initManager]) hsort hge
    intro p hp
    have hd : ((q :: rest).getLastD ((0 : ℚ), (0 : ℚ))).2 =
        ((q :: rest).getLastD ((0 : ℚ), q.2)).2 := by
      rw [List.getLastD_cons, List.getLastD_cons]
    rw [hd]
    exact h.2.2 p hp

theorem claim_C7_witness :
    ([((20000 : ℚ), (1 : ℚ))].getLastD (0, 0)).2 - BUFFER_DURATION ≤ (1 : ℚ) :=
  claim_C7_buffer_bound [(20000, 1)] (List.pairwise_singleton _ _)
    ((1 : ℚ), (20000 : ℚ))
    (by
      rw [run_cons, run_nil, wStep1]
      exact List.mem_singleton.mpr rfl)


/-! Breath-interval validity lemmas. -/

theorem dequeAppend_mem {cap : Nat} {xs : List α} {x y : α}
    (h : y ∈ dequeAppend cap xs x) : y ∈ xs ∨ y = x := by
  simp only [dequeAppend] at h
  split_ifs at h with hlen
  · have hmem := List.mem_of_mem_drop h
    rcases List.mem_append.mp hmem with hm | hm
    · exact Or.inl hm
    · exact Or.inr (List.mem_singleton.mp hm)
  · rcases List.mem_append.mp h with hm | hm
    · exact Or.inl hm
    · exact Or.inr (List.mem_singleton.mp hm)

theorem processMotion_intervals (m t : ℚ) (a : BreathingAnalyzer) :
    (processMotion m t a).1.breath_intervals = a.breath_intervals ∨
    ∃ i, MIN_BREATH_INTERVAL ≤ i ∧ i ≤ MAX_BREATH_INTERVAL ∧
      (processMotion m t a).1.breath_intervals = dequeAppend 50 a.breath_intervals i := by
  unfold processMotion
  by_cases h1 : m > BREATH_PEAK_THRESHOLD
  · rw [if_pos h1]
    by_cases h2 : a.in_peak = false
    · rw [if_pos h2]
      rcases hlp : a.last_peak_time with _ | lp
      · simp [hlp]
      · simp only [hlp]
        by_cases h3 : MIN_BREATH_INTERVAL ≤ t - lp ∧ t - lp ≤ MAX_BREATH_INTERVAL
        · right
          exact ⟨t - lp, h3.1, h3.2, by simp [h3]⟩
        · left
          rw [if_neg h3]
          split_ifs <;> rfl
    · rw [if_neg h2]
      exact Or.inl rfl
  · rw [if_neg h1]
    exact Or.inl rfl

theorem runBA_cons (p : ℚ × ℚ) (tr : List (ℚ × ℚ)) (a : BreathingAnalyzer) :
    runBA (p :: tr) a = runBA tr (processMotion p.1 p.2 a).1 := rfl

theorem runBA_intervals_bounded (tr : List (ℚ × ℚ)) (a : BreathingAnalyzer)
    (h : ∀ x ∈ a.breath_intervals, MIN_BREATH_INTERVAL ≤ x ∧ x ≤ MAX_BREATH_INTERVAL) :
    ∀ x ∈ (runBA tr a).breath_intervals,
      MIN_BREATH_INTERVAL ≤ x ∧ x ≤ MAX_BREATH_INTERVAL := by
  induction tr generalizing a with
  | nil => exact h
  | cons p tr ih =>
    rw [runBA_cons]
    apply ih
    intro x hx
    rcases processMotion_intervals p.1 p.2 a with he | ⟨i, hi1, hi5, he⟩
    · rw [he] at hx
      exact h x hx
    · rw [he] at hx
      rcases dequeAppend_mem hx with hmem | rfl
      · exact h x hmem
      · exact ⟨hi1, hi5⟩

/-- C5: along every trace of `process_motion` calls, every interval in the
inter-breath history satisfies
`MIN_BREATH_INTERVAL (1.0) ≤ interval ≤ MAX_BREATH_INTERVAL (5.0)`; on a
peak entry with a prior peak, `last_peak_time` is always updated to the
new timestamp, a too-long interval records only the peak timestamp, and a
too-short interval records neither the timestamp nor an interval. -/
theorem claim_C5_breath_interval_validity (tr : List (ℚ × ℚ)) :
    (∀ x ∈ (runBA tr BreathingAnalyzer.reset).breath_intervals,
      MIN_BREATH_INTERVAL ≤ x ∧ x ≤ MAX_BREATH_INTERVAL) ∧
    (∀ (b : BreathingAnalyzer) (m t lp : ℚ),
      m > BREATH_PEAK_THRESHOLD → b.in_peak = false → b.last_peak_time = some lp →
      (processMotion m t b).1.last_peak_time = some t ∧
      (t - lp > MAX_BREATH_INTERVAL →
        (processMotion m t b).1.breath_intervals = b.breath_intervals ∧
        (processMotion m t b).1.breath_timestamps = dequeAppend 100 b.breath_timestamps t) ∧
      (t - lp < MIN_BREATH_INTERVAL →
        (processMotion m t b).1.breath_intervals = b.breath_intervals ∧
        (processMotion m t b).1.breath_timestamps = b.breath_timestamps)) := by
  constructor
  · apply runBA_intervals_bounded
    intro x hx
    simp [BreathingAnalyzer.reset] at hx
  · intro b m t lp hm hip hlp
    have hgoal : (processMotion m t b).1 =
        (if MIN_BREATH_INTERVAL ≤ t - lp ∧ t - lp ≤ MAX_BREATH_INTERVAL then
          { b with
              in_peak := true
              last_peak_time := some t
              breath_timestamps := dequeAppend 100 b.breath_timestamps t
              breath_intervals := dequeAppend 50 b.breath_intervals (t - lp) }
        else if t - lp > MAX_BREATH_INTERVAL then
          { b with
              in_peak := true
              last_peak_time := some t
              breath_timestamps := dequeAppend 100 b.breath_timestamps t }
        else
          { b with in_peak := true, last_peak_time := some t }) := by
      unfold processMotion
      rw [if_pos hm, if_pos hip]
      simp only [hlp]
      split_ifs <;> rfl
    refine ⟨?_, ?_, ?_⟩
    · rw [hgoal]
      split_ifs <;> rfl
    · intro hgt
      have hn : ¬(MIN_BREATH_INTERVAL ≤ t - lp ∧ t - lp ≤ MAX_BREATH_INTERVAL) := by
        rintro ⟨_, hle⟩
        exact absurd hgt (not_lt.mpr hle)
      rw [hgoal, if_neg hn, if_pos hgt]
      exact ⟨rfl, rfl⟩
    · intro hlt
      have h1 : MIN_BREATH_INTERVAL ≤ MAX_BREATH_INTERVAL := by
        unfold MIN_BREATH_INTERVAL MAX_BREATH_INTERVAL
        norm_num
      have hn : ¬(MIN_BREATH_INTERVAL ≤ t - lp ∧ t - lp ≤ MAX_BREATH_INTERVAL) := by
        rintro ⟨hge, _⟩
        exact absurd hlt (not_lt.mpr hge)
      have hn2 : ¬(t - lp > MAX_BREATH_INTERVAL) := by
        intro hgt
        exact absurd hlt (not_lt.mpr (le_trans h1 (le_of_lt hgt)))
      rw [hgoal, if_neg hn, if_neg hn2]
      exact ⟨rfl, rfl⟩

theorem claim_C5_witness :
    (MIN_BREATH_INTERVAL ≤ (2 : ℚ) ∧ (2 : ℚ) ≤ MAX_BREATH_INTERVAL) ∧
    (processMotion 60000 8 ⟨[0, 2], [2], some 2, false⟩).1.last_peak_time = some 8 ∧
    (processMotion 60000 8 ⟨[0, 2], [2], some 2, false⟩).1.breath_intervals =
      (⟨[0, 2], [2], some 2, false⟩ : BreathingAnalyzer).breath_intervals ∧
    (processMotion 60000 8 ⟨[0, 2], [2], some 2, false⟩).1.breath_timestamps =
      dequeAppend 100 (⟨[0, 2], [2], some 2, false⟩ : BreathingAnalyzer).breath_timestamps 8 := by
  have h := (claim_C5_breath_interval_validity [(60000, 0), (30, 1), (60000, 2)]).2
    ⟨[0, 2], [2], some 2, false⟩ 60000 8 2
    (by norm_num [BREATH_PEAK_THRESHOLD]) rfl rfl
  have hmem := (claim_C5_breath_interval_validity [(60000, 0), (30, 1), (60000, 2)]).1 2
    (by norm_num [runBA, List.foldl, processMotion, BreathingAnalyzer.reset, dequeAppend,
      BREATH_PEAK_THRESHOLD, MIN_BREATH_INTERVAL, MAX_BREATH_INTERVAL])
  have hlong := h.2.1 (by norm_num [MAX_BREATH_INTERVAL])
  exact ⟨hmem, h.1, hlong.1, hlong.2⟩

end BabySleep
